import Mathlib

/-!
Shallow embedding of the document-mutation command layer of the
mcp-docx-server repository (src/server.py, src/utils/helpers.py,
src/tools/document_table.py), together with theorems settling the
specification claims about it.

Conventions of the embedding:
* Python `int` values supplied by callers are `Int`; lengths stored in the
  document model are EMU quantities (`Int`), as in the wrapped library.
* Python `float` arithmetic on option values is modelled with `ℚ`;
  `int(x)` is truncation toward zero (`pyInt`).
* A tool call is a function from the persisted document (the parsed file)
  to a status string and the new persisted document; an early `return`
  before `document.save` leaves the persisted document unchanged.
* The wrapped document library (python-docx) is external to the
  repository.  Its style-reference behaviour is modelled from the spec,
  section 4.4: referencing a style name succeeds precisely when the name
  is already defined in the document or is a known built-in of the
  requested kind, and a successful reference materialises the definition
  in the document's style collection.  The set of built-in styles is a
  parameter `builtin` of every operation that references styles.
-/

namespace DocxServer

/-- Style kinds, mirroring WD_STYLE_TYPE as used by server.py. -/
inductive StyleKind where
  | paragraph
  | character
  | table
deriving DecidableEq

/-- Page orientation, mirroring WD_ORIENT. -/
inductive Orient where
  | portrait
  | landscape
deriving DecidableEq

/-- Paragraph alignment, mirroring WD_ALIGN_PARAGRAPH. -/
inductive Alignment where
  | left
  | center
  | right
  | justify
deriving DecidableEq

/-- Section break type, mirroring WD_SECTION. -/
inductive SectStart where
  | newPage
  | evenPage
  | oddPage
  | continuous
deriving DecidableEq

/-- A stored line-spacing value: either a bare multiple (Python float
assigned directly) or an exact spacing in EMU (a `Pt` length). -/
inductive LineSpacingVal where
  | multiple (q : ℚ)
  | points (emu : Int)
deriving DecidableEq

/-- A caller-supplied scalar that may be a number or a string, as arriving
from the JSON tool-call payload. -/
inductive PyVal where
  | num (q : ℚ)
  | str (s : String)
deriving DecidableEq

/-- Python `int(x)` on a rational: truncation toward zero. -/
def pyInt (q : ℚ) : Int :=
  Int.tdiv q.num q.den

/-- Embeds `Inches(x)` of python-docx: EMU value `int(x * 914400)`. -/
def inchesEmu (q : ℚ) : Int :=
  pyInt (q * 914400)

/-- Embeds `Pt(x)` of python-docx: EMU value `int(x * 12700)`. -/
def ptEmu (q : ℚ) : Int :=
  pyInt (q * 12700)

/-- Digits of a numeral string folded to a natural number. -/
def digitsVal (cs : List Char) : Nat :=
  cs.foldl (fun a c => a * 10 + (c.toNat - 48)) 0

/-- Python `s.lower()` (ASCII, which is all the keywords use). -/
def pyLower (s : String) : String :=
  ⟨s.data.map Char.toLower⟩

/-- Python `s.upper()`. -/
def pyUpper (s : String) : String :=
  ⟨s.data.map Char.toUpper⟩

/-- Python `s.strip()`: whitespace removed from both ends. -/
def pyStrip (s : String) : String :=
  ⟨((s.data.dropWhile Char.isWhitespace).reverse.dropWhile Char.isWhitespace).reverse⟩

/-- Python `s.endswith(t)`. -/
def pyEndsWith (s t : String) : Bool :=
  t.data.isSuffixOf s.data

/-- Python `s.startswith(t)`. -/
def pyStartsWith (s t : String) : Bool :=
  t.data.isPrefixOf s.data

/-- Python `s[:-n]` for n at most the length. -/
def pyDropRight (s : String) (n : Nat) : String :=
  ⟨s.data.take (s.data.length - n)⟩

/-- Helper of `pySplitComma`: accumulate the current segment. -/
def splitCommaAux : List Char → List Char → List String
  | [], acc => [⟨acc.reverse⟩]
  | c :: cs, acc =>
      if c = ',' then (⟨acc.reverse⟩ : String) :: splitCommaAux cs []
      else splitCommaAux cs (c :: acc)

/-- Python `s.split(',')`: the empty string yields one empty segment. -/
def pySplitComma (s : String) : List String :=
  splitCommaAux s.data []

/-- Python `sep.join(xs)`. -/
def pyJoinWith (sep : String) (xs : List String) : String :=
  ⟨List.intercalate sep.data (xs.map String.data)⟩

/-- Python `float(s)` on a string, restricted to plain decimal literals
`[+-]digits[.digits]` (optionally surrounded by whitespace); returns
`none` when the conversion raises ValueError. -/
def parseFloat? (s : String) : Option ℚ :=
  let cs := (pyStrip s).data
  let (neg, cs) :=
    match cs with
    | '-' :: t => (true, t)
    | '+' :: t => (false, t)
    | _ => (false, cs)
  let ip := cs.takeWhile Char.isDigit
  let rest := cs.dropWhile Char.isDigit
  let mag? : Option ℚ :=
    match rest with
    | [] => if ip.isEmpty then none else some (digitsVal ip)
    | '.' :: fr =>
        if fr.all Char.isDigit ∧ ¬(ip.isEmpty ∧ fr.isEmpty) then
          some ((digitsVal ip : ℚ) + (digitsVal fr : ℚ) / ((10 : ℚ) ^ fr.length))
        else none
    | _ => none
  mag?.map fun m => if neg then -m else m

/-- Python `float(v)` on a caller-supplied value; `none` models ValueError. -/
def pyFloat? : PyVal → Option ℚ
  | .num q => some q
  | .str s => parseFloat? s

/-- The message of the ValueError raised by Python `float` on a bad value. -/
def floatErrMsg : PyVal → String
  | .num _ => "float conversion failed"
  | .str s => s!"could not convert string to float: '{s}'"

/-- Paragraph-level format state of one paragraph (a view of
`paragraph.paragraph_format`).  `none` means the property is inherited /
not explicitly set. -/
structure ParaFormat where
  alignment : Option Alignment := none
  leftIndent : Option Int := none
  rightIndent : Option Int := none
  firstLineIndent : Option Int := none
  spaceBefore : Option Int := none
  spaceAfter : Option Int := none
  lineSpacing : Option LineSpacingVal := none
  keepTogether : Option Bool := none
  keepWithNext : Option Bool := none
  pageBreakBefore : Option Bool := none
  widowControl : Option Bool := none
deriving DecidableEq

/-- A caller-supplied paragraph `formatting` map; `none` models an absent
key.  Numeric values for indents and spacing arrive as numbers, while
`line_spacing` may be any JSON scalar, hence `PyVal`. -/
structure PFormatting where
  alignment : Option String := none
  left_indent : Option ℚ := none
  right_indent : Option ℚ := none
  first_line_indent : Option ℚ := none
  space_before : Option ℚ := none
  space_after : Option ℚ := none
  line_spacing : Option PyVal := none
  keep_together : Option Bool := none
  keep_with_next : Option Bool := none
  page_break_before : Option Bool := none
  widow_control : Option Bool := none
deriving DecidableEq

/-- The alignment keyword map of `_apply_paragraph_formatting`. -/
def alignmentMap? (u : String) : Option Alignment :=
  if u = "LEFT" then some .left
  else if u = "CENTER" then some .center
  else if u = "RIGHT" then some .right
  else if u = "JUSTIFY" then some .justify
  else none

/-- The alignment key of `_apply_paragraph_formatting`: `if alignment:`
skips an absent or empty value, an unrecognised keyword is silently
ignored. -/
def fmtAlignment (fmt : PFormatting) (pf : ParaFormat) : ParaFormat :=
  match fmt.alignment with
  | none => pf
  | some a =>
      if a = "" then pf
      else
        match alignmentMap? (pyUpper a) with
        | some al => { pf with alignment := some al }
        | none => pf

/-- The `left_indent` key: inches converted to EMU when present. -/
def fmtLeftIndent (fmt : PFormatting) (pf : ParaFormat) : ParaFormat :=
  match fmt.left_indent with
  | none => pf
  | some q => { pf with leftIndent := some (inchesEmu q) }

/-- The `right_indent` key. -/
def fmtRightIndent (fmt : PFormatting) (pf : ParaFormat) : ParaFormat :=
  match fmt.right_indent with
  | none => pf
  | some q => { pf with rightIndent := some (inchesEmu q) }

/-- The `first_line_indent` key. -/
def fmtFirstLineIndent (fmt : PFormatting) (pf : ParaFormat) : ParaFormat :=
  match fmt.first_line_indent with
  | none => pf
  | some q => { pf with firstLineIndent := some (inchesEmu q) }

/-- The `space_before` key: points converted to EMU when present. -/
def fmtSpaceBefore (fmt : PFormatting) (pf : ParaFormat) : ParaFormat :=
  match fmt.space_before with
  | none => pf
  | some q => { pf with spaceBefore := some (ptEmu q) }

/-- The `space_after` key. -/
def fmtSpaceAfter (fmt : PFormatting) (pf : ParaFormat) : ParaFormat :=
  match fmt.space_after with
  | none => pf
  | some q => { pf with spaceAfter := some (ptEmu q) }

/-- The `line_spacing` key: `float(line_spacing)` applied as a multiple;
on ValueError the fallback applies `Pt(float(line_spacing))`, whose inner
conversion is the same and re-raises, propagating to the caller. -/
def fmtLineSpacing (fmt : PFormatting) (pf : ParaFormat) : Except String ParaFormat :=
  match fmt.line_spacing with
  | none => .ok pf
  | some v =>
      match pyFloat? v with
      | some q => .ok { pf with lineSpacing := some (.multiple q) }
      | none =>
          match pyFloat? v with
          | some q => .ok { pf with lineSpacing := some (.points (ptEmu q)) }
          | none => .error (floatErrMsg v)

/-- The `keep_together` key. -/
def fmtKeepTogether (fmt : PFormatting) (pf : ParaFormat) : ParaFormat :=
  match fmt.keep_together with
  | none => pf
  | some b => { pf with keepTogether := some b }

/-- The `keep_with_next` key. -/
def fmtKeepWithNext (fmt : PFormatting) (pf : ParaFormat) : ParaFormat :=
  match fmt.keep_with_next with
  | none => pf
  | some b => { pf with keepWithNext := some b }

/-- The `page_break_before` key. -/
def fmtPageBreakBefore (fmt : PFormatting) (pf : ParaFormat) : ParaFormat :=
  match fmt.page_break_before with
  | none => pf
  | some b => { pf with pageBreakBefore := some b }

/-- The `widow_control` key. -/
def fmtWidowControl (fmt : PFormatting) (pf : ParaFormat) : ParaFormat :=
  match fmt.widow_control with
  | none => pf
  | some b => { pf with widowControl := some b }

/-- Embeds `_apply_paragraph_formatting` (src/server.py lines 655-722 and the
identical copy in src/utils/helpers.py lines 31-98): the keys applied in
source order.  Every key is optional; an absent key leaves the stored
property unchanged.  An unparseable `line_spacing` value raises
ValueError, which propagates to the caller (`.error`) and aborts the
tool call before any save. -/
def applyParagraphFormatting (pf0 : ParaFormat) (fmt : PFormatting) : Except String ParaFormat :=
  match fmtLineSpacing fmt
      (fmtSpaceAfter fmt (fmtSpaceBefore fmt (fmtFirstLineIndent fmt
        (fmtRightIndent fmt (fmtLeftIndent fmt (fmtAlignment fmt pf0)))))) with
  | .error e => .error e
  | .ok pf =>
      .ok (fmtWidowControl fmt (fmtPageBreakBefore fmt
            (fmtKeepWithNext fmt (fmtKeepTogether fmt pf))))

deriving instance DecidableEq for Except

/-- A caller-supplied run/character `formatting` map; `none` models an
absent key. -/
structure RFormatting where
  name : Option String := none
  size : Option ℚ := none
  bold : Option Bool := none
  italic : Option Bool := none
  underline : Option Bool := none
  color : Option String := none
deriving DecidableEq

/-- Value of one hexadecimal digit. -/
def hexDigit? (c : Char) : Option Nat :=
  if '0' ≤ c ∧ c ≤ '9' then some (c.toNat - 48)
  else if 'a' ≤ c ∧ c ≤ 'f' then some (c.toNat - 87)
  else if 'A' ≤ c ∧ c ≤ 'F' then some (c.toNat - 55)
  else none

/-- Python `int(s, 16)` on a slice of the color string; `none` models the
ValueError raised on an empty or non-hexadecimal slice. -/
def parseHex? (cs : List Char) : Option Nat :=
  if cs.isEmpty then none
  else
    cs.foldl
      (fun acc c =>
        match acc, hexDigit? c with
        | some a, some d => some (a * 16 + d)
        | _, _ => none)
      (some 0)

/-- Python `int(s)` on a decimal string (the `rgb(r,g,b)` components after
`.strip()`); `none` models ValueError. -/
def pyIntStr? (s : String) : Option Int :=
  let cs := (pyStrip s).data
  let (neg, cs) :=
    match cs with
    | '-' :: t => (true, t)
    | '+' :: t => (false, t)
    | _ => (false, cs)
  if cs.isEmpty ∨ ¬cs.all Char.isDigit then none
  else some (if neg then -(digitsVal cs : Int) else (digitsVal cs : Int))

/-- Python `s.strip('rgb()')`: remove any of the characters of the set
from both ends. -/
def pyStripSet (s : String) (set : List Char) : String :=
  ⟨((s.data.dropWhile set.contains).reverse.dropWhile set.contains).reverse⟩

/-- The color-string parsing shared by `_apply_run_formatting` and
`modify_style`: `#RRGGBB` hex via three `int(_, 16)` slices, or
`rgb(r,g,b)`; returns the RGB triple, `none` when no branch applies
(the color is then silently ignored), `.error` when an `int` conversion
raises. -/
def parseColor (s : String) : Except String (Option (Int × Int × Int)) :=
  if pyStartsWith s "#" then
    let r? := parseHex? ((s.data.drop 1).take 2)
    let g? := parseHex? ((s.data.drop 3).take 2)
    let b? := parseHex? ((s.data.drop 5).take 2)
    match r?, g?, b? with
    | some r, some g, some b => .ok (some ((r : Int), (g : Int), (b : Int)))
    | _, _, _ => .error "invalid literal for int() with base 16"
  else if pyStartsWith s "rgb(" then
    let parts := pySplitComma (pyStripSet s ['r', 'g', 'b', '(', ')'])
    if parts.length = 3 then
      match pyIntStr? (parts.getD 0 ""), pyIntStr? (parts.getD 1 ""), pyIntStr? (parts.getD 2 "") with
      | some r, some g, some b => .ok (some (r, g, b))
      | _, _, _ => .error "invalid literal for int() with base 10"
    else .ok none
  else .ok none

/-- One run of text (a view of `run` / `run.font`). -/
structure Run where
  text : String := ""
  styleName : Option String := none
  fontName : Option String := none
  size : Option Int := none
  bold : Option Bool := none
  italic : Option Bool := none
  underline : Option Bool := none
  color : Option (Int × Int × Int) := none
deriving DecidableEq

/-- Embeds `_apply_run_formatting` (src/server.py lines 724-769 and the identical
copy in src/utils/helpers.py lines 100-145). -/
def applyRunFormatting (r0 : Run) (fmt : RFormatting) : Except String Run :=
  let r :=
    match fmt.name with
    | none => r0
    | some n => if n = "" then r0 else { r0 with fontName := some n }
  let r :=
    match fmt.size with
    | none => r
    | some q => { r with size := some (ptEmu q) }
  let r :=
    match fmt.bold with
    | none => r
    | some b => { r with bold := some b }
  let r :=
    match fmt.italic with
    | none => r
    | some b => { r with italic := some b }
  let r :=
    match fmt.underline with
    | none => r
    | some b => { r with underline := some b }
  match fmt.color with
  | none => .ok r
  | some c =>
      if c = "" then .ok r
      else
        match parseColor c with
        | .error e => .error e
        | .ok none => .ok r
        | .ok (some rgb) => .ok { r with color := some rgb }

/-- One paragraph of the document body (a view of `paragraph`). -/
structure Para where
  runs : List Run := []
  style : Option String := none
  fmt : ParaFormat := {}
deriving DecidableEq

instance : Inhabited Para := ⟨{}⟩

/-- Embeds `paragraph.text`: concatenation of the run texts. -/
def Para.text (p : Para) : String :=
  pyJoinWith "" (p.runs.map Run.text)

/-- A record of one `cell.merge` performed on a table (the library's
span bookkeeping is opaque; the merge arguments are recorded). -/
structure MergeRec where
  startRow : Int
  startCol : Int
  endRow : Int
  endCol : Int
deriving DecidableEq

/-- Formatting applied to one table cell's first paragraph. -/
structure CellFmtRec where
  row : Nat
  col : Nat
  fmt : ParaFormat
deriving DecidableEq

/-- One table of the document body. -/
structure TableM where
  rows : Nat := 1
  cols : Nat := 1
  cells : List (List String) := [[""]]
  style : Option String := none
  merges : List MergeRec := []
  cellFmts : List CellFmtRec := []
deriving DecidableEq

/-- The text of cell `(i, j)` of a table. -/
def TableM.cellText (t : TableM) (i j : Nat) : String :=
  (t.cells.getD i []).getD j ""

/-- One section (a view of `section` with its header and footer). -/
structure Sect where
  startType : SectStart := .newPage
  orientation : Orient := .portrait
  pageWidth : Int := 7772400
  pageHeight : Int := 10058400
  leftMargin : Int := 914400
  rightMargin : Int := 914400
  topMargin : Int := 914400
  bottomMargin : Int := 914400
  gutter : Int := 0
  headerDistance : Int := 457200
  footerDistance : Int := 457200
  headerLinked : Bool := true
  headerParas : List String := [""]
  footerLinked : Bool := true
  footerParas : List String := [""]
deriving DecidableEq

instance : Inhabited Sect := ⟨{}⟩

/-- The in-memory document model: body paragraphs and tables, the style
collection (name and kind of each defined style), and the sections. -/
structure Doc where
  paragraphs : List Para := []
  tables : List TableM := []
  styles : List (String × StyleKind) := []
  sections : List Sect := [{}]
deriving DecidableEq

/-- Embeds `style_exists` (src/server.py lines 35-40, src/utils/helpers.py
lines 23-28): scan the style collection for a matching name and kind. -/
def styleExists (d : Doc) (styleName : String) (k : StyleKind) : Bool :=
  d.styles.any fun p => p.1 = styleName ∧ p.2 = k

/-- Number of entries of the given name and kind in the style collection. -/
def styleCount (d : Doc) (styleName : String) (k : StyleKind) : Nat :=
  d.styles.countP fun p => p.1 = styleName ∧ p.2 = k

/-- A style name is resolvable by the library's name lookup iff some style
of that name is defined in the document or the name is a built-in of the
requested kind (library behaviour modelled from the spec, section 4.4). -/
def resolvable (builtin : String → StyleKind → Bool) (d : Doc) (styleName : String)
    (k : StyleKind) : Bool :=
  styleExists d styleName k || builtin styleName k

/-- The `style_type_map` of `ensure_style_exists` / `create_custom_style`:
lowercased style-kind keyword to kind. -/
def styleTypeMap? (s : String) : Option StyleKind :=
  if s = "paragraph" then some .paragraph
  else if s = "character" then some .character
  else if s = "table" then some .table
  else none

/-- Outcome of referencing a style by name through the wrapped library
(assigning it to a throwaway paragraph, run or table). -/
inductive StyleRef where
  | ok (d : Doc)
  | keyErr (msg : String)
  | valErr (msg : String)

/-- The library's style-name resolution, modelled from the spec, section
4.4, and the library's documented lookup: a name defined in the document
resolves to that definition (a kind mismatch raises ValueError); an
undefined name that is a known built-in of the requested kind is
materialised into the style collection; any other name raises KeyError. -/
def refStyle (builtin : String → StyleKind → Bool) (d : Doc) (styleName : String)
    (k : StyleKind) : StyleRef :=
  if d.styles.any (fun p => p.1 = styleName) then
    if styleExists d styleName k then .ok d
    else .valErr s!"assigned style '{styleName}' is of the wrong type"
  else if builtin styleName k then .ok { d with styles := d.styles ++ [(styleName, k)] }
  else .keyErr s!"no style with name '{styleName}'"

/-- Embeds `ensure_style_exists` (src/server.py lines 90-175).  Returns the
status string and the persisted document.  The kind-specific
materialisation (throwaway paragraph / styled run / 1x1 table, removed
before saving) saves the document on success; a KeyError from the
reference is caught and reported as the built-in-style-not-found message,
a ValueError escapes to the handler returning `str(e)`, both without
saving. -/
def ensureStyleExists (builtin : String → StyleKind → Bool) (d : Doc)
    (styleName styleType : String) : String × Doc :=
  match styleTypeMap? (pyLower styleType) with
  | none =>
      (s!"Error: Invalid style type '{styleType}'. Valid values are: paragraph, character, table", d)
  | some k =>
      if styleExists d styleName k then
        (s!"Style '{styleName}' already exists in document.", d)
      else
        match refStyle builtin d styleName k with
        | .ok d1 =>
            let msg :=
              match k with
              | .paragraph => s!"Paragraph style '{styleName}' successfully defined in document."
              | .character => s!"Character style '{styleName}' successfully defined in document."
              | .table => s!"Table style '{styleName}' successfully defined in document."
            (msg, d1)
        | .keyErr _ =>
            (s!"Error: Built-in style '{styleName}' not found in Word. Check the style name.", d)
        | .valErr m => (m, d)

/-- Embeds `add_table` of src/server.py (lines 1210-1279).  Persisted-state
semantics: the early returns (unknown style warning, data-dimension
error) leave the file unchanged because they happen before
`document.save`. -/
def serverAddTable (builtin : String → StyleKind → Bool) (d : Doc) (rows cols : Nat)
    (data style : Option String) : String × Doc :=
  let mat : Except String Doc :=
    match style with
    | none => .ok d
    | some st =>
        if styleExists d st .table then .ok d
        else
          match refStyle builtin d st .table with
          | .ok d1 => .ok d1
          | .keyErr _ =>
              .error s!"Warning: Table style '{st}' not found. Table will be added with default style."
          | .valErr m => .error m
  match mat with
  | .error w => (w, d)
  | .ok d1 =>
      let emptyCells := List.replicate rows (List.replicate cols "")
      let fill : Except String (List (List String)) :=
        match data with
        | none => .ok emptyCells
        | some ds =>
            if ds = "" then .ok emptyCells
            else
              let dataList := pySplitComma ds
              if rows * cols < dataList.length then
                .error s!"Error: Number of data elements ({dataList.length}) exceeds table dimensions ({rows}x{cols})."
              else
                let padded := dataList ++ List.replicate (rows * cols - dataList.length) ""
                .ok ((List.range rows).map fun i =>
                      (List.range cols).map fun j => pyStrip (padded.getD (i * cols + j) ""))
      match fill with
      | .error e => (e, d)
      | .ok cells =>
          let t : TableM := { rows := rows, cols := cols, cells := cells, style := style }
          (s!"Table with {rows} rows and {cols} columns added successfully.",
           { d1 with tables := d1.tables ++ [t] })

/-- Embeds `os.path.join` for a directory and a relative file name. -/
def pyJoin (dir file : String) : String :=
  dir ++ "/" ++ file

/-- Embeds `get_document_path` of src/server.py (lines 19-22): the document file
lives next to the script, named `{doc_id}.docx`. -/
def serverGetDocumentPath (scriptDir docId : String) : String :=
  pyJoin scriptDir (docId ++ ".docx")

/-- Embeds `get_document_path` of src/utils/helpers.py (lines 8-11): the
document file lives in the package root directory (the parent of
`utils/`), named `{doc_id}.docx`. -/
def helpersGetDocumentPath (pkgDir docId : String) : String :=
  pyJoin pkgDir (docId ++ ".docx")

/-- The path `save_document` of src/utils/helpers.py (lines 264-284)
writes to: the `.docx` suffix is stripped case-insensitively from the
name, and the file goes into the `DOCX_DOCUMENTS_DIR` environment
directory, defaulting to `documents`. -/
def saveDocumentPath (envDir : Option String) (documentName : String) : String :=
  let name :=
    if pyEndsWith (pyLower documentName) ".docx" then pyDropRight documentName 5
    else documentName
  pyJoin (envDir.getD "documents") (name ++ ".docx")

/-- The load path and the save path used by one mutating tool of
src/server.py: both are `get_document_path(doc_id)` (`load_document`
at the top of the handler, `document.save(get_document_path(doc_id))`
at the bottom). -/
def serverToolPaths (scriptDir docId : String) : String × String :=
  (serverGetDocumentPath scriptDir docId, serverGetDocumentPath scriptDir docId)

/-- The load path and the save path used by `add_table` of
src/tools/document_table.py (lines 37-85): it loads through
`load_document` (src/utils/helpers.py, hence `helpersGetDocumentPath`)
and saves through `save_document` (hence `saveDocumentPath`). -/
def toolsAddTablePaths (pkgDir : String) (envDir : Option String)
    (documentName : String) : String × String :=
  (helpersGetDocumentPath pkgDir documentName, saveDocumentPath envDir documentName)

/-- The backward walk of `get_header_text` (src/server.py lines
1993-2000): starting from `section_index`, step to lower indices and
return the first one whose header is not linked to previous. -/
def findPrevUnlinkedHeader (secs : List Sect) : Nat → Option Nat
  | 0 => none
  | j + 1 =>
      if (secs.getD j default).headerLinked then findPrevUnlinkedHeader secs j
      else some j

theorem findPrevUnlinkedHeader_lt (secs : List Sect) (i j : Nat)
    (h : findPrevUnlinkedHeader secs i = some j) : j < i := by
  induction i with
  | zero => simp [findPrevUnlinkedHeader] at h
  | succ n ih =>
      rw [findPrevUnlinkedHeader] at h
      split at h
      · have := ih h
        omega
      · cases h
        omega

/-- The provenance-carrying reply of `get_header_text` for a linked
header: which section supplied the content, and the content itself. -/
def inheritedHeaderMsg (j : Nat) (content : String) : String :=
  s!"Header is linked to section {j}. Content: {content}"

/-- Embeds `get_header_text` (src/server.py lines 1973-2016).  A linked header
walks backward to the nearest section with its own definition and reports
both the providing section index and (recursively) its content; an
unlinked header returns its paragraph texts joined by newlines. -/
def getHeaderText (secs : List Sect) (i : Nat) : String :=
  if secs.length ≤ i then
    s!"Error: Section index {i} is out of range. Document has {secs.length} sections."
  else if (secs.getD i default).headerLinked then
    match hfind : findPrevUnlinkedHeader secs i with
    | some j => inheritedHeaderMsg j (getHeaderText secs j)
    | none => "No header defined for this section (linked to previous, but no previous header found)."
  else
    let headerText := (secs.getD i default).headerParas
    if headerText = [] then "Header is defined but contains no text."
    else pyJoinWith "\n" headerText
termination_by i
decreasing_by exact findPrevUnlinkedHeader_lt secs i _ hfind

/-- The `section_types` map shared by `add_section` and
`set_section_properties`. -/
def sectionTypeMap? (s : String) : Option SectStart :=
  if s = "NEW_PAGE" then some .newPage
  else if s = "EVEN_PAGE" then some .evenPage
  else if s = "ODD_PAGE" then some .oddPage
  else if s = "CONTINUOUS" then some .continuous
  else none

/-- A caller-supplied `properties` map for `set_section_properties`;
`none` models an absent key. -/
structure SectionProps where
  start_type : Option String := none
  orientation : Option String := none
  page_width : Option ℚ := none
  page_height : Option ℚ := none
  left_margin : Option ℚ := none
  right_margin : Option ℚ := none
  top_margin : Option ℚ := none
  bottom_margin : Option ℚ := none
  gutter : Option ℚ := none
  header_distance : Option ℚ := none
  footer_distance : Option ℚ := none
deriving DecidableEq

/-- The orientation step of `set_section_properties` (src/server.py lines
972-1002): on an actual orientation change, width and height are swapped
unless an explicit `page_width` or `page_height` key is in the same
`properties` map; an unknown keyword is an error. -/
def applyOrientationStep (p : SectionProps) (s : Sect) : Except String Sect :=
  match p.orientation with
  | none => .ok s
  | some o =>
      let ou := pyUpper o
      if ou = "LANDSCAPE" then
        if s.orientation = .portrait then
          let s2 := { s with orientation := .landscape }
          if p.page_width = none ∧ p.page_height = none then
            .ok { s2 with pageWidth := s.pageHeight, pageHeight := s.pageWidth }
          else .ok s2
        else .ok { s with orientation := .landscape }
      else if ou = "PORTRAIT" then
        if s.orientation = .landscape then
          let s2 := { s with orientation := .portrait }
          if p.page_width = none ∧ p.page_height = none then
            .ok { s2 with pageWidth := s.pageHeight, pageHeight := s.pageWidth }
          else .ok s2
        else .ok { s with orientation := .portrait }
      else .error s!"Error: Invalid orientation '{ou}'. Valid values are: PORTRAIT, LANDSCAPE"

/-- The explicit page-dimension keys of `set_section_properties`, applied
after any orientation change: inches converted to EMU. -/
def applyDimSteps (p : SectionProps) (s : Sect) : Sect :=
  let s :=
    match p.page_width with
    | none => s
    | some q => { s with pageWidth := inchesEmu q }
  match p.page_height with
  | none => s
  | some q => { s with pageHeight := inchesEmu q }

/-- The margin keys of `set_section_properties` (the `margin_prop` loop):
each present key is converted from inches to EMU and assigned. -/
def applyMarginSteps (p : SectionProps) (s : Sect) : Sect :=
  let s :=
    match p.left_margin with
    | none => s
    | some q => { s with leftMargin := inchesEmu q }
  let s :=
    match p.right_margin with
    | none => s
    | some q => { s with rightMargin := inchesEmu q }
  let s :=
    match p.top_margin with
    | none => s
    | some q => { s with topMargin := inchesEmu q }
  let s :=
    match p.bottom_margin with
    | none => s
    | some q => { s with bottomMargin := inchesEmu q }
  let s :=
    match p.gutter with
    | none => s
    | some q => { s with gutter := inchesEmu q }
  let s :=
    match p.header_distance with
    | none => s
    | some q => { s with headerDistance := inchesEmu q }
  match p.footer_distance with
  | none => s
  | some q => { s with footerDistance := inchesEmu q }

/-- The `start_type` key of `set_section_properties`: an uppercased
keyword mapped through `section_types`, an unknown keyword is an error. -/
def startTypeStep (p : SectionProps) (s : Sect) : Except String Sect :=
  match p.start_type with
  | none => .ok s
  | some st =>
      match sectionTypeMap? (pyUpper st) with
      | some t => .ok { s with startType := t }
      | none =>
          .error s!"Error: Invalid section start type '{pyUpper st}'. Valid values are: NEW_PAGE, EVEN_PAGE, ODD_PAGE, CONTINUOUS"

/-- Embeds `set_section_properties` (src/server.py lines 931-1023): index check,
then start type, orientation (with the conditional width/height swap),
explicit page dimensions, and margins, followed by a save; any error
returns before the save. -/
def setSectionProperties (d : Doc) (sectionIndex : Nat) (p : SectionProps) : String × Doc :=
  if d.sections.length ≤ sectionIndex then
    (s!"Error: Section index {sectionIndex} is out of range. Document has {d.sections.length} sections.",
     d)
  else
    match (startTypeStep p (d.sections.getD sectionIndex default)).bind
        (applyOrientationStep p) with
    | .error e => (e, d)
    | .ok s2 =>
        (s!"Properties for section {sectionIndex} updated successfully.",
         { d with
           sections := d.sections.set sectionIndex (applyMarginSteps p (applyDimSteps p s2)) })

/-- Embeds `change_page_orientation` (src/server.py lines 1025-1040): a wrapper
around `set_section_properties` with an orientation-only map. -/
def changePageOrientation (d : Doc) (sectionIndex : Nat) (orientation : String) : String × Doc :=
  setSectionProperties d sectionIndex { orientation := some orientation }

/-- Embeds `set_paragraph_properties` (src/server.py lines 1418-1447): bounds
check, apply the formatting map to the paragraph, save; a raised
ValueError (unparseable `line_spacing`) is returned as the message with
no save. -/
def setParagraphProperties (d : Doc) (paragraphIndex : Int) (formatting : PFormatting) :
    String × Doc :=
  if paragraphIndex < 0 ∨ (d.paragraphs.length : Int) ≤ paragraphIndex then
    ("Error: Paragraph index out of range.", d)
  else
    let i := paragraphIndex.toNat
    let p := d.paragraphs.getD i default
    match applyParagraphFormatting p.fmt formatting with
    | .error e => (e, d)
    | .ok pf =>
        (s!"Paragraph {i} properties set successfully.",
         { d with paragraphs := d.paragraphs.set i { p with fmt := pf } })

/-- Embeds `add_formatted_text` (src/server.py lines 1104-1137): bounds check,
append a run with the text to the paragraph, apply run formatting, save;
an out-of-range index or a raised ValueError returns before the save. -/
def addFormattedText (d : Doc) (paragraphIndex : Int) (text : String)
    (formatting : Option RFormatting) : String × Doc :=
  if paragraphIndex < 0 ∨ (d.paragraphs.length : Int) ≤ paragraphIndex then
    ("Error: Paragraph index out of range.", d)
  else
    let i := paragraphIndex.toNat
    let p := d.paragraphs.getD i default
    let run0 : Run := { text := text }
    let applied : Except String Run :=
      match formatting with
      | none => .ok run0
      | some f => applyRunFormatting run0 f
    match applied with
    | .error e => (e, d)
    | .ok r =>
        ("Formatted text added successfully.",
         { d with paragraphs := d.paragraphs.set i { p with runs := p.runs ++ [r] } })

/-- Python list indexing: non-negative indices must be below the length,
negative indices wrap once from the end; anything else raises IndexError
(`none`). -/
def pyIdx? (len : Nat) (i : Int) : Option Nat :=
  if 0 ≤ i then
    if i < (len : Int) then some i.toNat else none
  else if -i ≤ (len : Int) then some (len - (-i).toNat)
  else none

instance : Inhabited TableM := ⟨{}⟩

/-- Embeds `Table.cell(row, col)` of the wrapped library: lookup at the flat
grid position `col + row * column_count` of the `rows*cols` cell list
(Python indexing, so a negative flat position wraps); `none` models the
IndexError raised when the position is outside the list. -/
def tableCellIdx? (t : TableM) (r c : Int) : Option Nat :=
  pyIdx? (t.rows * t.cols) (c + r * (t.cols : Int))

/-- Embeds `merge_table_cells` of src/server.py (lines 1281-1321).  Validation:
the document must have tables and `table_index` must be below the table
count; then `start_row >= 0`, `end_row < row_count`, `start_col >= 0`.
There is no validation of `start_col`/`end_col` against the column count
nor of the ordering of the range; after validation the two `table.cell`
lookups may still raise IndexError inside the library, which the generic
handler reports without saving. -/
def serverMergeTableCells (d : Doc) (tableIndex startRow startCol endRow endCol : Int) :
    String × Doc :=
  if d.tables.length = 0 ∨ (d.tables.length : Int) ≤ tableIndex then
    (s!"Error: Table index {tableIndex} is out of range. Document has {d.tables.length} tables.",
     d)
  else
    match pyIdx? d.tables.length tableIndex with
    | none => ("Error merging table cells: list index out of range", d)
    | some ti =>
        let t := d.tables.getD ti default
        if startRow < 0 ∨ (t.rows : Int) ≤ endRow ∨ startCol < 0 then
          ("Error: Row or column index out of range.", d)
        else
          match tableCellIdx? t startRow startCol, tableCellIdx? t endRow endCol with
          | some _, some _ =>
              let t2 :=
                { t with
                  merges := t.merges ++ [{ startRow := startRow, startCol := startCol,
                                           endRow := endRow, endCol := endCol }] }
              (s!"Cells merged from ({startRow},{startCol}) to ({endRow},{endCol}) in table {tableIndex}.",
               { d with tables := d.tables.set ti t2 })
          | _, _ => ("Error merging table cells: list index out of range", d)

/-- Embeds `merge_table_cells` registered by src/tools/document_table.py (lines
149-192).  It bounds-checks every index, including `start_col` and
`end_col` against the column count, returning `false` with no save on any
violation.  (Its save goes through `save_document`, i.e. to
`saveDocumentPath`, not to the load path.) -/
def toolsMergeTableCells (d : Doc) (tableIndex startRow startCol endRow endCol : Int) :
    Bool × Doc :=
  if tableIndex < 0 ∨ (d.tables.length : Int) ≤ tableIndex then (false, d)
  else
    let t := d.tables.getD tableIndex.toNat default
    if startRow < 0 ∨ (t.rows : Int) ≤ startRow ∨
       endRow < 0 ∨ (t.rows : Int) ≤ endRow ∨
       startCol < 0 ∨ (t.cols : Int) ≤ startCol ∨
       endCol < 0 ∨ (t.cols : Int) ≤ endCol then (false, d)
    else
      let t2 :=
        { t with
          merges := t.merges ++ [{ startRow := startRow, startCol := startCol,
                                   endRow := endRow, endCol := endCol }] }
      (true, { d with tables := d.tables.set tableIndex.toNat t2 })

/-- Failure of `_add_content_to_document`: `dims` models `return False`
(table data irreconcilable with declared dimensions), `exn` models an
exception propagating to the tool-level handler. -/
inductive AddFail where
  | dims
  | exn (msg : String)
deriving DecidableEq

/-- The runs of a freshly added paragraph: one run carrying the text when
it is nonempty. -/
def mkRuns (text : String) : List Run :=
  if text = "" then [] else [{ text := text }]

/-- Embeds `document.add_heading(text, level)`: a paragraph styled `Title`
(level 0) or `Heading {level}`; the style reference may raise. -/
def docAddHeading (builtin : String → StyleKind → Bool) (d : Doc) (text : String)
    (level : Nat) : Except String Doc :=
  let sname := if level = 0 then "Title" else s!"Heading {level}"
  match refStyle builtin d sname .paragraph with
  | .ok d1 =>
      .ok { d1 with paragraphs := d1.paragraphs ++ [{ runs := mkRuns text, style := some sname }] }
  | .keyErr m => .error m
  | .valErr m => .error m

/-- One typed content descriptor consumed by `_add_content_to_document`;
`type := none` models a missing `type` key (`item.get("type", "")`). -/
structure ContentItem where
  type : Option String := none
  text : String := ""
  level : Nat := 1
  style : Option String := none
  formatting : PFormatting := {}
  run_formatting : RFormatting := {}
  rows : Nat := 1
  cols : Nat := 1
  data : String := ""
  cell_formatting : List (Nat × Nat × PFormatting) := []
deriving DecidableEq

/-- The lowercased discriminator of a descriptor:
`item.get("type", "").lower()`. -/
def contentTypeOf (item : ContentItem) : String :=
  pyLower (item.type.getD "")

/-- Run formatting applied to `paragraph.runs[0]` when the paragraph has
runs (the paragraph branch of `_add_content_to_document`). -/
def applyRunFmtToFirst (runs : List Run) (fmt : RFormatting) : Except String (List Run) :=
  match runs with
  | [] => .ok []
  | r :: rs =>
      match applyRunFormatting r fmt with
      | .error e => .error e
      | .ok r2 => .ok (r2 :: rs)

/-- The `cell_formatting` loop of the table branch: each in-range entry
formats the cell's first paragraph (initially unformatted); out-of-range
entries are skipped. -/
def applyCellFormatting (t : TableM) : List (Nat × Nat × PFormatting) → Except String TableM
  | [] => .ok t
  | (row, col, f) :: rest =>
      if row < t.rows ∧ col < t.cols then
        match applyParagraphFormatting {} f with
        | .error e => .error e
        | .ok pf =>
            applyCellFormatting
              { t with cellFmts := t.cellFmts ++ [{ row := row, col := col, fmt := pf }] } rest
      else applyCellFormatting t rest

/-- One iteration of the `_add_content_to_document` loop (src/server.py
lines 538-653, src/utils/helpers.py lines 147-262): dispatch on the
lowercased `type`.  A descriptor whose type is none of `heading`,
`paragraph`, `table` matches no branch and contributes nothing. -/
def addContentItem (builtin : String → StyleKind → Bool) (d : Doc) (item : ContentItem) :
    Except AddFail Doc :=
  if contentTypeOf item = "heading" then
    match docAddHeading builtin d item.text item.level with
    | .error m => .error (.exn m)
    | .ok d1 =>
        let ps := d1.paragraphs
        match ps.getLast? with
        | none => .ok d1
        | some h =>
            match applyParagraphFormatting h.fmt item.formatting with
            | .error e => .error (.exn e)
            | .ok pf => .ok { d1 with paragraphs := ps.dropLast ++ [{ h with fmt := pf }] }
  else if contentTypeOf item = "paragraph" then
    match item.style with
    | none =>
        match applyParagraphFormatting {} item.formatting with
        | .error e => .error (.exn e)
        | .ok pf =>
            match applyRunFmtToFirst (mkRuns item.text) item.run_formatting with
            | .error e => .error (.exn e)
            | .ok runs =>
                .ok { d with paragraphs := d.paragraphs ++ [{ runs := runs, fmt := pf }] }
    | some st =>
        match refStyle builtin d st .paragraph with
        | .valErr m => .error (.exn m)
        | .keyErr _ =>
            .ok { d with paragraphs := d.paragraphs ++ [{ runs := mkRuns item.text }] }
        | .ok d1 =>
            match applyParagraphFormatting {} item.formatting with
            | .error e => .error (.exn e)
            | .ok pf =>
                match applyRunFmtToFirst (mkRuns item.text) item.run_formatting with
                | .error e => .error (.exn e)
                | .ok runs =>
                    .ok { d1 with
                          paragraphs := d1.paragraphs ++ [{ runs := runs, style := some st, fmt := pf }] }
  else if contentTypeOf item = "table" then
    let rows := item.rows
    let cols := item.cols
    let styled : Except AddFail (Doc × Option String) :=
      match item.style with
      | none => .ok (d, none)
      | some st =>
          if styleExists d st .table then .ok (d, some st)
          else
            match refStyle builtin d st .table with
            | .ok d1 => .ok (d1, some st)
            | .keyErr _ => .ok (d, none)
            | .valErr m => .error (.exn m)
    match styled with
    | .error f => .error f
    | .ok (d1, tstyle) =>
        let emptyCells := List.replicate rows (List.replicate cols "")
        let fill : Except AddFail (List (List String)) :=
          if item.data = "" then .ok emptyCells
          else
            let dataList := pySplitComma item.data
            let dataList :=
              if dataList.length < rows * cols then
                dataList ++ List.replicate (rows * cols - dataList.length) ""
              else dataList
            if dataList.length ≠ rows * cols then .error .dims
            else
              .ok ((List.range rows).map fun i =>
                    (List.range cols).map fun j => pyStrip (dataList.getD (i * cols + j) ""))
        match fill with
        | .error f => .error f
        | .ok cells =>
            let t : TableM := { rows := rows, cols := cols, cells := cells, style := tstyle }
            match applyCellFormatting t item.cell_formatting with
            | .error e => .error (.exn e)
            | .ok t2 => .ok { d1 with tables := d1.tables ++ [t2] }
  else .ok d

/-- Embeds `_add_content_to_document`: fold the loop over the descriptor list;
`return False` and exceptions abort the remaining items. -/
def addContentToDocument (builtin : String → StyleKind → Bool) (d : Doc) :
    List ContentItem → Except AddFail Doc
  | [] => .ok d
  | item :: rest =>
      match addContentItem builtin d item with
      | .error f => .error f
      | .ok d1 => addContentToDocument builtin d1 rest

/-- The style collection of the default template used by `Document()`:
the built-in styles the library's template part defines up front. -/
def defaultTemplateStyles : List (String × StyleKind) :=
  [("Normal", .paragraph), ("Title", .paragraph), ("Subtitle", .paragraph),
   ("Heading 1", .paragraph), ("Heading 2", .paragraph), ("Heading 3", .paragraph),
   ("Header", .paragraph), ("Footer", .paragraph),
   ("Default Paragraph Font", .character),
   ("Normal Table", .table), ("Table Grid", .table)]

/-- Embeds `Document()`: a fresh document from the default template. -/
def newDocument : Doc :=
  { paragraphs := [], tables := [], styles := defaultTemplateStyles, sections := [{}] }

/-- Embeds `create_complete_document` (src/server.py lines 783-798).  Returns
the status string and the file contents written by `document.save`
(`none` when the call returns before saving). -/
def createCompleteDocument (builtin : String → StyleKind → Bool) (scriptDir docId title : String)
    (content : List ContentItem) : String × Option Doc :=
  match docAddHeading builtin newDocument title 0 with
  | .error e => (s!"Error creating document: {e}", none)
  | .ok d0 =>
      match addContentToDocument builtin d0 content with
      | .error .dims =>
          ("Error in table data: Number of data elements does not match table dimensions.", none)
      | .error (.exn e) => (s!"Error creating document: {e}", none)
      | .ok d1 =>
          (s!"Document '{docId}.docx' created successfully with title and {content.length} content items at path: {serverGetDocumentPath scriptDir docId}",
           some d1)

/-- The ` and N content items` fragment of the update status message
(empty for an empty content list, matching Python truthiness). -/
def contentMsgOf (content : List ContentItem) : String :=
  if content.isEmpty then "" else s!" and {content.length} content items"

/-- The assembled `update_document` status string. -/
def updateDocMsg (docId action titleMsg contentMsg : String) : String :=
  s!"Document '{docId}.docx' {action}{titleMsg}{contentMsg} successfully."

/-- Embeds `update_document` (src/server.py lines 800-829).  `file` is the
persisted document under the resolved path (`none` when the file does not
exist); the result's second component is the file state after the call. -/
def updateDocument (builtin : String → StyleKind → Bool) (docId : String) (file : Option Doc)
    (title : Option String) (content : List ContentItem) (append : Bool) : String × Option Doc :=
  if file = none ∧ append then
    (s!"Document '{docId}.docx' does not exist and cannot be updated. Create it first.", file)
  else
    let tv := title.getD ""
    let base : Except String Doc :=
      if ¬append ∨ file = none then
        if tv ≠ "" then docAddHeading builtin newDocument tv 0 else .ok newDocument
      else
        if tv ≠ "" then docAddHeading builtin (file.getD newDocument) tv 1
        else .ok (file.getD newDocument)
    match base with
    | .error e => (s!"Error updating document: {e}", file)
    | .ok d0 =>
        match addContentToDocument builtin d0 content with
        | .error .dims =>
            ("Error in table data: Number of data elements does not match table dimensions.", file)
        | .error (.exn e) => (s!"Error updating document: {e}", file)
        | .ok d1 =>
            (updateDocMsg docId (if append then "updated by appending" else "replaced")
               (if tv ≠ "" then " with new title" else "") (contentMsgOf content),
             some d1)

/-! Frame lemmas: each formatting step changes only its own field, and
an absent key makes the step the identity. -/

@[simp] theorem fmtAlignment_leftIndent (fmt : PFormatting) (pf : ParaFormat) :
    (fmtAlignment fmt pf).leftIndent = pf.leftIndent := by
  unfold fmtAlignment
  cases fmt.alignment with
  | none => rfl
  | some a =>
      by_cases h : a = "" <;> simp [h] <;> cases alignmentMap? (pyUpper a) <;> rfl

@[simp] theorem fmtAlignment_rightIndent (fmt : PFormatting) (pf : ParaFormat) :
    (fmtAlignment fmt pf).rightIndent = pf.rightIndent := by
  unfold fmtAlignment
  cases fmt.alignment with
  | none => rfl
  | some a =>
      by_cases h : a = "" <;> simp [h] <;> cases alignmentMap? (pyUpper a) <;> rfl

@[simp] theorem fmtAlignment_firstLineIndent (fmt : PFormatting) (pf : ParaFormat) :
    (fmtAlignment fmt pf).firstLineIndent = pf.firstLineIndent := by
  unfold fmtAlignment
  cases fmt.alignment with
  | none => rfl
  | some a =>
      by_cases h : a = "" <;> simp [h] <;> cases alignmentMap? (pyUpper a) <;> rfl

@[simp] theorem fmtAlignment_spaceBefore (fmt : PFormatting) (pf : ParaFormat) :
    (fmtAlignment fmt pf).spaceBefore = pf.spaceBefore := by
  unfold fmtAlignment
  cases fmt.alignment with
  | none => rfl
  | some a =>
      by_cases h : a = "" <;> simp [h] <;> cases alignmentMap? (pyUpper a) <;> rfl

@[simp] theorem fmtAlignment_spaceAfter (fmt : PFormatting) (pf : ParaFormat) :
    (fmtAlignment fmt pf).spaceAfter = pf.spaceAfter := by
  unfold fmtAlignment
  cases fmt.alignment with
  | none => rfl
  | some a =>
      by_cases h : a = "" <;> simp [h] <;> cases alignmentMap? (pyUpper a) <;> rfl

@[simp] theorem fmtAlignment_lineSpacing (fmt : PFormatting) (pf : ParaFormat) :
    (fmtAlignment fmt pf).lineSpacing = pf.lineSpacing := by
  unfold fmtAlignment
  cases fmt.alignment with
  | none => rfl
  | some a =>
      by_cases h : a = "" <;> simp [h] <;> cases alignmentMap? (pyUpper a) <;> rfl

@[simp] theorem fmtAlignment_keepTogether (fmt : PFormatting) (pf : ParaFormat) :
    (fmtAlignment fmt pf).keepTogether = pf.keepTogether := by
  unfold fmtAlignment
  cases fmt.alignment with
  | none => rfl
  | some a =>
      by_cases h : a = "" <;> simp [h] <;> cases alignmentMap? (pyUpper a) <;> rfl

@[simp] theorem fmtAlignment_keepWithNext (fmt : PFormatting) (pf : ParaFormat) :
    (fmtAlignment fmt pf).keepWithNext = pf.keepWithNext := by
  unfold fmtAlignment
  cases fmt.alignment with
  | none => rfl
  | some a =>
      by_cases h : a = "" <;> simp [h] <;> cases alignmentMap? (pyUpper a) <;> rfl

@[simp] theorem fmtAlignment_pageBreakBefore (fmt : PFormatting) (pf : ParaFormat) :
    (fmtAlignment fmt pf).pageBreakBefore = pf.pageBreakBefore := by
  unfold fmtAlignment
  cases fmt.alignment with
  | none => rfl
  | some a =>
      by_cases h : a = "" <;> simp [h] <;> cases alignmentMap? (pyUpper a) <;> rfl

@[simp] theorem fmtAlignment_widowControl (fmt : PFormatting) (pf : ParaFormat) :
    (fmtAlignment fmt pf).widowControl = pf.widowControl := by
  unfold fmtAlignment
  cases fmt.alignment with
  | none => rfl
  | some a =>
      by_cases h : a = "" <;> simp [h] <;> cases alignmentMap? (pyUpper a) <;> rfl

@[simp] theorem fmtLeftIndent_alignment (fmt : PFormatting) (pf : ParaFormat) :
    (fmtLeftIndent fmt pf).alignment = pf.alignment := by
  unfold fmtLeftIndent; cases fmt.left_indent <;> rfl

@[simp] theorem fmtLeftIndent_rightIndent (fmt : PFormatting) (pf : ParaFormat) :
    (fmtLeftIndent fmt pf).rightIndent = pf.rightIndent := by
  unfold fmtLeftIndent; cases fmt.left_indent <;> rfl

@[simp] theorem fmtLeftIndent_firstLineIndent (fmt : PFormatting) (pf : ParaFormat) :
    (fmtLeftIndent fmt pf).firstLineIndent = pf.firstLineIndent := by
  unfold fmtLeftIndent; cases fmt.left_indent <;> rfl

@[simp] theorem fmtLeftIndent_spaceBefore (fmt : PFormatting) (pf : ParaFormat) :
    (fmtLeftIndent fmt pf).spaceBefore = pf.spaceBefore := by
  unfold fmtLeftIndent; cases fmt.left_indent <;> rfl

@[simp] theorem fmtLeftIndent_spaceAfter (fmt : PFormatting) (pf : ParaFormat) :
    (fmtLeftIndent fmt pf).spaceAfter = pf.spaceAfter := by
  unfold fmtLeftIndent; cases fmt.left_indent <;> rfl

@[simp] theorem fmtLeftIndent_lineSpacing (fmt : PFormatting) (pf : ParaFormat) :
    (fmtLeftIndent fmt pf).lineSpacing = pf.lineSpacing := by
  unfold fmtLeftIndent; cases fmt.left_indent <;> rfl

@[simp] theorem fmtLeftIndent_keepTogether (fmt : PFormatting) (pf : ParaFormat) :
    (fmtLeftIndent fmt pf).keepTogether = pf.keepTogether := by
  unfold fmtLeftIndent; cases fmt.left_indent <;> rfl

@[simp] theorem fmtLeftIndent_keepWithNext (fmt : PFormatting) (pf : ParaFormat) :
    (fmtLeftIndent fmt pf).keepWithNext = pf.keepWithNext := by
  unfold fmtLeftIndent; cases fmt.left_indent <;> rfl

@[simp] theorem fmtLeftIndent_pageBreakBefore (fmt : PFormatting) (pf : ParaFormat) :
    (fmtLeftIndent fmt pf).pageBreakBefore = pf.pageBreakBefore := by
  unfold fmtLeftIndent; cases fmt.left_indent <;> rfl

@[simp] theorem fmtLeftIndent_widowControl (fmt : PFormatting) (pf : ParaFormat) :
    (fmtLeftIndent fmt pf).widowControl = pf.widowControl := by
  unfold fmtLeftIndent; cases fmt.left_indent <;> rfl

@[simp] theorem fmtRightIndent_alignment (fmt : PFormatting) (pf : ParaFormat) :
    (fmtRightIndent fmt pf).alignment = pf.alignment := by
  unfold fmtRightIndent; cases fmt.right_indent <;> rfl

@[simp] theorem fmtRightIndent_leftIndent (fmt : PFormatting) (pf : ParaFormat) :
    (fmtRightIndent fmt pf).leftIndent = pf.leftIndent := by
  unfold fmtRightIndent; cases fmt.right_indent <;> rfl

@[simp] theorem fmtRightIndent_firstLineIndent (fmt : PFormatting) (pf : ParaFormat) :
    (fmtRightIndent fmt pf).firstLineIndent = pf.firstLineIndent := by
  unfold fmtRightIndent; cases fmt.right_indent <;> rfl

@[simp] theorem fmtRightIndent_spaceBefore (fmt : PFormatting) (pf : ParaFormat) :
    (fmtRightIndent fmt pf).spaceBefore = pf.spaceBefore := by
  unfold fmtRightIndent; cases fmt.right_indent <;> rfl

@[simp] theorem fmtRightIndent_spaceAfter (fmt : PFormatting) (pf : ParaFormat) :
    (fmtRightIndent fmt pf).spaceAfter = pf.spaceAfter := by
  unfold fmtRightIndent; cases fmt.right_indent <;> rfl

@[simp] theorem fmtRightIndent_lineSpacing (fmt : PFormatting) (pf : ParaFormat) :
    (fmtRightIndent fmt pf).lineSpacing = pf.lineSpacing := by
  unfold fmtRightIndent; cases fmt.right_indent <;> rfl

@[simp] theorem fmtRightIndent_keepTogether (fmt : PFormatting) (pf : ParaFormat) :
    (fmtRightIndent fmt pf).keepTogether = pf.keepTogether := by
  unfold fmtRightIndent; cases fmt.right_indent <;> rfl

@[simp] theorem fmtRightIndent_keepWithNext (fmt : PFormatting) (pf : ParaFormat) :
    (fmtRightIndent fmt pf).keepWithNext = pf.keepWithNext := by
  unfold fmtRightIndent; cases fmt.right_indent <;> rfl

@[simp] theorem fmtRightIndent_pageBreakBefore (fmt : PFormatting) (pf : ParaFormat) :
    (fmtRightIndent fmt pf).pageBreakBefore = pf.pageBreakBefore := by
  unfold fmtRightIndent; cases fmt.right_indent <;> rfl

@[simp] theorem fmtRightIndent_widowControl (fmt : PFormatting) (pf : ParaFormat) :
    (fmtRightIndent fmt pf).widowControl = pf.widowControl := by
  unfold fmtRightIndent; cases fmt.right_indent <;> rfl

@[simp] theorem fmtFirstLineIndent_alignment (fmt : PFormatting) (pf : ParaFormat) :
    (fmtFirstLineIndent fmt pf).alignment = pf.alignment := by
  unfold fmtFirstLineIndent; cases fmt.first_line_indent <;> rfl

@[simp] theorem fmtFirstLineIndent_leftIndent (fmt : PFormatting) (pf : ParaFormat) :
    (fmtFirstLineIndent fmt pf).leftIndent = pf.leftIndent := by
  unfold fmtFirstLineIndent; cases fmt.first_line_indent <;> rfl

@[simp] theorem fmtFirstLineIndent_rightIndent (fmt : PFormatting) (pf : ParaFormat) :
    (fmtFirstLineIndent fmt pf).rightIndent = pf.rightIndent := by
  unfold fmtFirstLineIndent; cases fmt.first_line_indent <;> rfl

@[simp] theorem fmtFirstLineIndent_spaceBefore (fmt : PFormatting) (pf : ParaFormat) :
    (fmtFirstLineIndent fmt pf).spaceBefore = pf.spaceBefore := by
  unfold fmtFirstLineIndent; cases fmt.first_line_indent <;> rfl

@[simp] theorem fmtFirstLineIndent_spaceAfter (fmt : PFormatting) (pf : ParaFormat) :
    (fmtFirstLineIndent fmt pf).spaceAfter = pf.spaceAfter := by
  unfold fmtFirstLineIndent; cases fmt.first_line_indent <;> rfl

@[simp] theorem fmtFirstLineIndent_lineSpacing (fmt : PFormatting) (pf : ParaFormat) :
    (fmtFirstLineIndent fmt pf).lineSpacing = pf.lineSpacing := by
  unfold fmtFirstLineIndent; cases fmt.first_line_indent <;> rfl

@[simp] theorem fmtFirstLineIndent_keepTogether (fmt : PFormatting) (pf : ParaFormat) :
    (fmtFirstLineIndent fmt pf).keepTogether = pf.keepTogether := by
  unfold fmtFirstLineIndent; cases fmt.first_line_indent <;> rfl

@[simp] theorem fmtFirstLineIndent_keepWithNext (fmt : PFormatting) (pf : ParaFormat) :
    (fmtFirstLineIndent fmt pf).keepWithNext = pf.keepWithNext := by
  unfold fmtFirstLineIndent; cases fmt.first_line_indent <;> rfl

@[simp] theorem fmtFirstLineIndent_pageBreakBefore (fmt : PFormatting) (pf : ParaFormat) :
    (fmtFirstLineIndent fmt pf).pageBreakBefore = pf.pageBreakBefore := by
  unfold fmtFirstLineIndent; cases fmt.first_line_indent <;> rfl

@[simp] theorem fmtFirstLineIndent_widowControl (fmt : PFormatting) (pf : ParaFormat) :
    (fmtFirstLineIndent fmt pf).widowControl = pf.widowControl := by
  unfold fmtFirstLineIndent; cases fmt.first_line_indent <;> rfl

@[simp] theorem fmtSpaceBefore_alignment (fmt : PFormatting) (pf : ParaFormat) :
    (fmtSpaceBefore fmt pf).alignment = pf.alignment := by
  unfold fmtSpaceBefore; cases fmt.space_before <;> rfl

@[simp] theorem fmtSpaceBefore_leftIndent (fmt : PFormatting) (pf : ParaFormat) :
    (fmtSpaceBefore fmt pf).leftIndent = pf.leftIndent := by
  unfold fmtSpaceBefore; cases fmt.space_before <;> rfl

@[simp] theorem fmtSpaceBefore_rightIndent (fmt : PFormatting) (pf : ParaFormat) :
    (fmtSpaceBefore fmt pf).rightIndent = pf.rightIndent := by
  unfold fmtSpaceBefore; cases fmt.space_before <;> rfl

@[simp] theorem fmtSpaceBefore_firstLineIndent (fmt : PFormatting) (pf : ParaFormat) :
    (fmtSpaceBefore fmt pf).firstLineIndent = pf.firstLineIndent := by
  unfold fmtSpaceBefore; cases fmt.space_before <;> rfl

@[simp] theorem fmtSpaceBefore_spaceAfter (fmt : PFormatting) (pf : ParaFormat) :
    (fmtSpaceBefore fmt pf).spaceAfter = pf.spaceAfter := by
  unfold fmtSpaceBefore; cases fmt.space_before <;> rfl

@[simp] theorem fmtSpaceBefore_lineSpacing (fmt : PFormatting) (pf : ParaFormat) :
    (fmtSpaceBefore fmt pf).lineSpacing = pf.lineSpacing := by
  unfold fmtSpaceBefore; cases fmt.space_before <;> rfl

@[simp] theorem fmtSpaceBefore_keepTogether (fmt : PFormatting) (pf : ParaFormat) :
    (fmtSpaceBefore fmt pf).keepTogether = pf.keepTogether := by
  unfold fmtSpaceBefore; cases fmt.space_before <;> rfl

@[simp] theorem fmtSpaceBefore_keepWithNext (fmt : PFormatting) (pf : ParaFormat) :
    (fmtSpaceBefore fmt pf).keepWithNext = pf.keepWithNext := by
  unfold fmtSpaceBefore; cases fmt.space_before <;> rfl

@[simp] theorem fmtSpaceBefore_pageBreakBefore (fmt : PFormatting) (pf : ParaFormat) :
    (fmtSpaceBefore fmt pf).pageBreakBefore = pf.pageBreakBefore := by
  unfold fmtSpaceBefore; cases fmt.space_before <;> rfl

@[simp] theorem fmtSpaceBefore_widowControl (fmt : PFormatting) (pf : ParaFormat) :
    (fmtSpaceBefore fmt pf).widowControl = pf.widowControl := by
  unfold fmtSpaceBefore; cases fmt.space_before <;> rfl

@[simp] theorem fmtSpaceAfter_alignment (fmt : PFormatting) (pf : ParaFormat) :
    (fmtSpaceAfter fmt pf).alignment = pf.alignment := by
  unfold fmtSpaceAfter; cases fmt.space_after <;> rfl

@[simp] theorem fmtSpaceAfter_leftIndent (fmt : PFormatting) (pf : ParaFormat) :
    (fmtSpaceAfter fmt pf).leftIndent = pf.leftIndent := by
  unfold fmtSpaceAfter; cases fmt.space_after <;> rfl

@[simp] theorem fmtSpaceAfter_rightIndent (fmt : PFormatting) (pf : ParaFormat) :
    (fmtSpaceAfter fmt pf).rightIndent = pf.rightIndent := by
  unfold fmtSpaceAfter; cases fmt.space_after <;> rfl

@[simp] theorem fmtSpaceAfter_firstLineIndent (fmt : PFormatting) (pf : ParaFormat) :
    (fmtSpaceAfter fmt pf).firstLineIndent = pf.firstLineIndent := by
  unfold fmtSpaceAfter; cases fmt.space_after <;> rfl

@[simp] theorem fmtSpaceAfter_spaceBefore (fmt : PFormatting) (pf : ParaFormat) :
    (fmtSpaceAfter fmt pf).spaceBefore = pf.spaceBefore := by
  unfold fmtSpaceAfter; cases fmt.space_after <;> rfl

@[simp] theorem fmtSpaceAfter_lineSpacing (fmt : PFormatting) (pf : ParaFormat) :
    (fmtSpaceAfter fmt pf).lineSpacing = pf.lineSpacing := by
  unfold fmtSpaceAfter; cases fmt.space_after <;> rfl

@[simp] theorem fmtSpaceAfter_keepTogether (fmt : PFormatting) (pf : ParaFormat) :
    (fmtSpaceAfter fmt pf).keepTogether = pf.keepTogether := by
  unfold fmtSpaceAfter; cases fmt.space_after <;> rfl

@[simp] theorem fmtSpaceAfter_keepWithNext (fmt : PFormatting) (pf : ParaFormat) :
    (fmtSpaceAfter fmt pf).keepWithNext = pf.keepWithNext := by
  unfold fmtSpaceAfter; cases fmt.space_after <;> rfl

@[simp] theorem fmtSpaceAfter_pageBreakBefore (fmt : PFormatting) (pf : ParaFormat) :
    (fmtSpaceAfter fmt pf).pageBreakBefore = pf.pageBreakBefore := by
  unfold fmtSpaceAfter; cases fmt.space_after <;> rfl

@[simp] theorem fmtSpaceAfter_widowControl (fmt : PFormatting) (pf : ParaFormat) :
    (fmtSpaceAfter fmt pf).widowControl = pf.widowControl := by
  unfold fmtSpaceAfter; cases fmt.space_after <;> rfl

@[simp] theorem fmtKeepTogether_alignment (fmt : PFormatting) (pf : ParaFormat) :
    (fmtKeepTogether fmt pf).alignment = pf.alignment := by
  unfold fmtKeepTogether; cases fmt.keep_together <;> rfl

@[simp] theorem fmtKeepTogether_leftIndent (fmt : PFormatting) (pf : ParaFormat) :
    (fmtKeepTogether fmt pf).leftIndent = pf.leftIndent := by
  unfold fmtKeepTogether; cases fmt.keep_together <;> rfl

@[simp] theorem fmtKeepTogether_rightIndent (fmt : PFormatting) (pf : ParaFormat) :
    (fmtKeepTogether fmt pf).rightIndent = pf.rightIndent := by
  unfold fmtKeepTogether; cases fmt.keep_together <;> rfl

@[simp] theorem fmtKeepTogether_firstLineIndent (fmt : PFormatting) (pf : ParaFormat) :
    (fmtKeepTogether fmt pf).firstLineIndent = pf.firstLineIndent := by
  unfold fmtKeepTogether; cases fmt.keep_together <;> rfl

@[simp] theorem fmtKeepTogether_spaceBefore (fmt : PFormatting) (pf : ParaFormat) :
    (fmtKeepTogether fmt pf).spaceBefore = pf.spaceBefore := by
  unfold fmtKeepTogether; cases fmt.keep_together <;> rfl

@[simp] theorem fmtKeepTogether_spaceAfter (fmt : PFormatting) (pf : ParaFormat) :
    (fmtKeepTogether fmt pf).spaceAfter = pf.spaceAfter := by
  unfold fmtKeepTogether; cases fmt.keep_together <;> rfl

@[simp] theorem fmtKeepTogether_lineSpacing (fmt : PFormatting) (pf : ParaFormat) :
    (fmtKeepTogether fmt pf).lineSpacing = pf.lineSpacing := by
  unfold fmtKeepTogether; cases fmt.keep_together <;> rfl

@[simp] theorem fmtKeepTogether_keepWithNext (fmt : PFormatting) (pf : ParaFormat) :
    (fmtKeepTogether fmt pf).keepWithNext = pf.keepWithNext := by
  unfold fmtKeepTogether; cases fmt.keep_together <;> rfl

@[simp] theorem fmtKeepTogether_pageBreakBefore (fmt : PFormatting) (pf : ParaFormat) :
    (fmtKeepTogether fmt pf).pageBreakBefore = pf.pageBreakBefore := by
  unfold fmtKeepTogether; cases fmt.keep_together <;> rfl

@[simp] theorem fmtKeepTogether_widowControl (fmt : PFormatting) (pf : ParaFormat) :
    (fmtKeepTogether fmt pf).widowControl = pf.widowControl := by
  unfold fmtKeepTogether; cases fmt.keep_together <;> rfl

@[simp] theorem fmtKeepWithNext_alignment (fmt : PFormatting) (pf : ParaFormat) :
    (fmtKeepWithNext fmt pf).alignment = pf.alignment := by
  unfold fmtKeepWithNext; cases fmt.keep_with_next <;> rfl

@[simp] theorem fmtKeepWithNext_leftIndent (fmt : PFormatting) (pf : ParaFormat) :
    (fmtKeepWithNext fmt pf).leftIndent = pf.leftIndent := by
  unfold fmtKeepWithNext; cases fmt.keep_with_next <;> rfl

@[simp] theorem fmtKeepWithNext_rightIndent (fmt : PFormatting) (pf : ParaFormat) :
    (fmtKeepWithNext fmt pf).rightIndent = pf.rightIndent := by
  unfold fmtKeepWithNext; cases fmt.keep_with_next <;> rfl

@[simp] theorem fmtKeepWithNext_firstLineIndent (fmt : PFormatting) (pf : ParaFormat) :
    (fmtKeepWithNext fmt pf).firstLineIndent = pf.firstLineIndent := by
  unfold fmtKeepWithNext; cases fmt.keep_with_next <;> rfl

@[simp] theorem fmtKeepWithNext_spaceBefore (fmt : PFormatting) (pf : ParaFormat) :
    (fmtKeepWithNext fmt pf).spaceBefore = pf.spaceBefore := by
  unfold fmtKeepWithNext; cases fmt.keep_with_next <;> rfl

@[simp] theorem fmtKeepWithNext_spaceAfter (fmt : PFormatting) (pf : ParaFormat) :
    (fmtKeepWithNext fmt pf).spaceAfter = pf.spaceAfter := by
  unfold fmtKeepWithNext; cases fmt.keep_with_next <;> rfl

@[simp] theorem fmtKeepWithNext_lineSpacing (fmt : PFormatting) (pf : ParaFormat) :
    (fmtKeepWithNext fmt pf).lineSpacing = pf.lineSpacing := by
  unfold fmtKeepWithNext; cases fmt.keep_with_next <;> rfl

@[simp] theorem fmtKeepWithNext_keepTogether (fmt : PFormatting) (pf : ParaFormat) :
    (fmtKeepWithNext fmt pf).keepTogether = pf.keepTogether := by
  unfold fmtKeepWithNext; cases fmt.keep_with_next <;> rfl

@[simp] theorem fmtKeepWithNext_pageBreakBefore (fmt : PFormatting) (pf : ParaFormat) :
    (fmtKeepWithNext fmt pf).pageBreakBefore = pf.pageBreakBefore := by
  unfold fmtKeepWithNext; cases fmt.keep_with_next <;> rfl

@[simp] theorem fmtKeepWithNext_widowControl (fmt : PFormatting) (pf : ParaFormat) :
    (fmtKeepWithNext fmt pf).widowControl = pf.widowControl := by
  unfold fmtKeepWithNext; cases fmt.keep_with_next <;> rfl

@[simp] theorem fmtPageBreakBefore_alignment (fmt : PFormatting) (pf : ParaFormat) :
    (fmtPageBreakBefore fmt pf).alignment = pf.alignment := by
  unfold fmtPageBreakBefore; cases fmt.page_break_before <;> rfl

@[simp] theorem fmtPageBreakBefore_leftIndent (fmt : PFormatting) (pf : ParaFormat) :
    (fmtPageBreakBefore fmt pf).leftIndent = pf.leftIndent := by
  unfold fmtPageBreakBefore; cases fmt.page_break_before <;> rfl

@[simp] theorem fmtPageBreakBefore_rightIndent (fmt : PFormatting) (pf : ParaFormat) :
    (fmtPageBreakBefore fmt pf).rightIndent = pf.rightIndent := by
  unfold fmtPageBreakBefore; cases fmt.page_break_before <;> rfl

@[simp] theorem fmtPageBreakBefore_firstLineIndent (fmt : PFormatting) (pf : ParaFormat) :
    (fmtPageBreakBefore fmt pf).firstLineIndent = pf.firstLineIndent := by
  unfold fmtPageBreakBefore; cases fmt.page_break_before <;> rfl

@[simp] theorem fmtPageBreakBefore_spaceBefore (fmt : PFormatting) (pf : ParaFormat) :
    (fmtPageBreakBefore fmt pf).spaceBefore = pf.spaceBefore := by
  unfold fmtPageBreakBefore; cases fmt.page_break_before <;> rfl

@[simp] theorem fmtPageBreakBefore_spaceAfter (fmt : PFormatting) (pf : ParaFormat) :
    (fmtPageBreakBefore fmt pf).spaceAfter = pf.spaceAfter := by
  unfold fmtPageBreakBefore; cases fmt.page_break_before <;> rfl

@[simp] theorem fmtPageBreakBefore_lineSpacing (fmt : PFormatting) (pf : ParaFormat) :
    (fmtPageBreakBefore fmt pf).lineSpacing = pf.lineSpacing := by
  unfold fmtPageBreakBefore; cases fmt.page_break_before <;> rfl

@[simp] theorem fmtPageBreakBefore_keepTogether (fmt : PFormatting) (pf : ParaFormat) :
    (fmtPageBreakBefore fmt pf).keepTogether = pf.keepTogether := by
  unfold fmtPageBreakBefore; cases fmt.page_break_before <;> rfl

@[simp] theorem fmtPageBreakBefore_keepWithNext (fmt : PFormatting) (pf : ParaFormat) :
    (fmtPageBreakBefore fmt pf).keepWithNext = pf.keepWithNext := by
  unfold fmtPageBreakBefore; cases fmt.page_break_before <;> rfl

@[simp] theorem fmtPageBreakBefore_widowControl (fmt : PFormatting) (pf : ParaFormat) :
    (fmtPageBreakBefore fmt pf).widowControl = pf.widowControl := by
  unfold fmtPageBreakBefore; cases fmt.page_break_before <;> rfl

@[simp] theorem fmtWidowControl_alignment (fmt : PFormatting) (pf : ParaFormat) :
    (fmtWidowControl fmt pf).alignment = pf.alignment := by
  unfold fmtWidowControl; cases fmt.widow_control <;> rfl

@[simp] theorem fmtWidowControl_leftIndent (fmt : PFormatting) (pf : ParaFormat) :
    (fmtWidowControl fmt pf).leftIndent = pf.leftIndent := by
  unfold fmtWidowControl; cases fmt.widow_control <;> rfl

@[simp] theorem fmtWidowControl_rightIndent (fmt : PFormatting) (pf : ParaFormat) :
    (fmtWidowControl fmt pf).rightIndent = pf.rightIndent := by
  unfold fmtWidowControl; cases fmt.widow_control <;> rfl

@[simp] theorem fmtWidowControl_firstLineIndent (fmt : PFormatting) (pf : ParaFormat) :
    (fmtWidowControl fmt pf).firstLineIndent = pf.firstLineIndent := by
  unfold fmtWidowControl; cases fmt.widow_control <;> rfl

@[simp] theorem fmtWidowControl_spaceBefore (fmt : PFormatting) (pf : ParaFormat) :
    (fmtWidowControl fmt pf).spaceBefore = pf.spaceBefore := by
  unfold fmtWidowControl; cases fmt.widow_control <;> rfl

@[simp] theorem fmtWidowControl_spaceAfter (fmt : PFormatting) (pf : ParaFormat) :
    (fmtWidowControl fmt pf).spaceAfter = pf.spaceAfter := by
  unfold fmtWidowControl; cases fmt.widow_control <;> rfl

@[simp] theorem fmtWidowControl_lineSpacing (fmt : PFormatting) (pf : ParaFormat) :
    (fmtWidowControl fmt pf).lineSpacing = pf.lineSpacing := by
  unfold fmtWidowControl; cases fmt.widow_control <;> rfl

@[simp] theorem fmtWidowControl_keepTogether (fmt : PFormatting) (pf : ParaFormat) :
    (fmtWidowControl fmt pf).keepTogether = pf.keepTogether := by
  unfold fmtWidowControl; cases fmt.widow_control <;> rfl

@[simp] theorem fmtWidowControl_keepWithNext (fmt : PFormatting) (pf : ParaFormat) :
    (fmtWidowControl fmt pf).keepWithNext = pf.keepWithNext := by
  unfold fmtWidowControl; cases fmt.widow_control <;> rfl

@[simp] theorem fmtWidowControl_pageBreakBefore (fmt : PFormatting) (pf : ParaFormat) :
    (fmtWidowControl fmt pf).pageBreakBefore = pf.pageBreakBefore := by
  unfold fmtWidowControl; cases fmt.widow_control <;> rfl

theorem fmtAlignment_none (fmt : PFormatting) (pf : ParaFormat)
    (h : fmt.alignment = none) : fmtAlignment fmt pf = pf := by
  unfold fmtAlignment; rw [h]

theorem fmtLeftIndent_none (fmt : PFormatting) (pf : ParaFormat)
    (h : fmt.left_indent = none) : fmtLeftIndent fmt pf = pf := by
  unfold fmtLeftIndent; rw [h]

theorem fmtRightIndent_none (fmt : PFormatting) (pf : ParaFormat)
    (h : fmt.right_indent = none) : fmtRightIndent fmt pf = pf := by
  unfold fmtRightIndent; rw [h]

theorem fmtFirstLineIndent_none (fmt : PFormatting) (pf : ParaFormat)
    (h : fmt.first_line_indent = none) : fmtFirstLineIndent fmt pf = pf := by
  unfold fmtFirstLineIndent; rw [h]

theorem fmtSpaceBefore_none (fmt : PFormatting) (pf : ParaFormat)
    (h : fmt.space_before = none) : fmtSpaceBefore fmt pf = pf := by
  unfold fmtSpaceBefore; rw [h]

theorem fmtSpaceAfter_none (fmt : PFormatting) (pf : ParaFormat)
    (h : fmt.space_after = none) : fmtSpaceAfter fmt pf = pf := by
  unfold fmtSpaceAfter; rw [h]

theorem fmtKeepTogether_none (fmt : PFormatting) (pf : ParaFormat)
    (h : fmt.keep_together = none) : fmtKeepTogether fmt pf = pf := by
  unfold fmtKeepTogether; rw [h]

theorem fmtKeepWithNext_none (fmt : PFormatting) (pf : ParaFormat)
    (h : fmt.keep_with_next = none) : fmtKeepWithNext fmt pf = pf := by
  unfold fmtKeepWithNext; rw [h]

theorem fmtPageBreakBefore_none (fmt : PFormatting) (pf : ParaFormat)
    (h : fmt.page_break_before = none) : fmtPageBreakBefore fmt pf = pf := by
  unfold fmtPageBreakBefore; rw [h]

theorem fmtWidowControl_none (fmt : PFormatting) (pf : ParaFormat)
    (h : fmt.widow_control = none) : fmtWidowControl fmt pf = pf := by
  unfold fmtWidowControl; rw [h]


theorem fmtLineSpacing_none (fmt : PFormatting) (pf : ParaFormat)
    (h : fmt.line_spacing = none) : fmtLineSpacing fmt pf = .ok pf := by
  unfold fmtLineSpacing; rw [h]

theorem fmtLineSpacing_ok_frame (fmt : PFormatting) (pf pf2 : ParaFormat)
    (h : fmtLineSpacing fmt pf = .ok pf2) :
    pf2.alignment = pf.alignment ∧ pf2.leftIndent = pf.leftIndent ∧
    pf2.rightIndent = pf.rightIndent ∧ pf2.firstLineIndent = pf.firstLineIndent ∧
    pf2.spaceBefore = pf.spaceBefore ∧ pf2.spaceAfter = pf.spaceAfter ∧
    pf2.keepTogether = pf.keepTogether ∧ pf2.keepWithNext = pf.keepWithNext ∧
    pf2.pageBreakBefore = pf.pageBreakBefore ∧ pf2.widowControl = pf.widowControl := by
  unfold fmtLineSpacing at h
  cases hv : fmt.line_spacing with
  | none =>
      simp only [hv] at h
      cases h
      exact ⟨rfl, rfl, rfl, rfl, rfl, rfl, rfl, rfl, rfl, rfl⟩
  | some v =>
      simp only [hv] at h
      cases hq : pyFloat? v with
      | some q =>
          simp only [hq] at h
          cases h
          exact ⟨rfl, rfl, rfl, rfl, rfl, rfl, rfl, rfl, rfl, rfl⟩
      | none =>
          simp only [hq] at h
          exact absurd h (by simp)

/-- The `line_spacing` step applied as a bare-float multiple on success. -/
theorem fmtLineSpacing_some (fmt : PFormatting) (pf : ParaFormat) (v : PyVal) (q : ℚ)
    (hv : fmt.line_spacing = some v) (hq : pyFloat? v = some q) :
    fmtLineSpacing fmt pf = .ok { pf with lineSpacing := some (.multiple q) } := by
  unfold fmtLineSpacing; simp only [hv, hq]

/-- The `line_spacing` step errors when the float conversion fails: the
fallback re-runs the same conversion. -/
theorem fmtLineSpacing_err (fmt : PFormatting) (pf : ParaFormat) (v : PyVal)
    (hv : fmt.line_spacing = some v) (hq : pyFloat? v = none) :
    fmtLineSpacing fmt pf = .error (floatErrMsg v) := by
  unfold fmtLineSpacing; simp only [hv, hq]

@[simp] theorem applyMarginSteps_pageWidth (p : SectionProps) (s : Sect) :
    (applyMarginSteps p s).pageWidth = s.pageWidth := by
  unfold applyMarginSteps
  cases p.left_margin <;> cases p.right_margin <;> cases p.top_margin <;>
    cases p.bottom_margin <;> cases p.gutter <;> cases p.header_distance <;>
    cases p.footer_distance <;> rfl

@[simp] theorem applyMarginSteps_pageHeight (p : SectionProps) (s : Sect) :
    (applyMarginSteps p s).pageHeight = s.pageHeight := by
  unfold applyMarginSteps
  cases p.left_margin <;> cases p.right_margin <;> cases p.top_margin <;>
    cases p.bottom_margin <;> cases p.gutter <;> cases p.header_distance <;>
    cases p.footer_distance <;> rfl

@[simp] theorem applyMarginSteps_orientation (p : SectionProps) (s : Sect) :
    (applyMarginSteps p s).orientation = s.orientation := by
  unfold applyMarginSteps
  cases p.left_margin <;> cases p.right_margin <;> cases p.top_margin <;>
    cases p.bottom_margin <;> cases p.gutter <;> cases p.header_distance <;>
    cases p.footer_distance <;> rfl

theorem applyDimSteps_none (p : SectionProps) (s : Sect)
    (hw : p.page_width = none) (hh : p.page_height = none) : applyDimSteps p s = s := by
  unfold applyDimSteps; rw [hw, hh]

theorem applyDimSteps_both (p : SectionProps) (s : Sect) (w h : ℚ)
    (hw : p.page_width = some w) (hh : p.page_height = some h) :
    applyDimSteps p s = { s with pageWidth := inchesEmu w, pageHeight := inchesEmu h } := by
  unfold applyDimSteps; rw [hw, hh]

theorem applyDimSteps_width_only (p : SectionProps) (s : Sect) (w : ℚ)
    (hw : p.page_width = some w) (hh : p.page_height = none) :
    applyDimSteps p s = { s with pageWidth := inchesEmu w } := by
  unfold applyDimSteps; rw [hw, hh]

theorem applyDimSteps_height_only (p : SectionProps) (s : Sect) (h : ℚ)
    (hw : p.page_width = none) (hh : p.page_height = some h) :
    applyDimSteps p s = { s with pageHeight := inchesEmu h } := by
  unfold applyDimSteps; rw [hw, hh]

/-- C9: for every document and every paragraph_index outside
[0, number of paragraphs), `add_formatted_text` returns the out-of-range
error message and leaves the persisted document unchanged: no run or
paragraph is added and nothing is saved. -/
theorem add_formatted_text_out_of_range (d : Doc) (idx : Int) (text : String)
    (fmt : Option RFormatting)
    (h : idx < 0 ∨ (d.paragraphs.length : Int) ≤ idx) :
    addFormattedText d idx text fmt = ("Error: Paragraph index out of range.", d) := by
  unfold addFormattedText
  rw [if_pos h]

/-- C9 witness: `add_formatted_text("d", 999, "x")` on a 3-paragraph
document errors and changes nothing. -/
theorem add_formatted_text_out_of_range_witness :
    addFormattedText { paragraphs := [{}, {}, {}] } 999 "x" none
      = ("Error: Paragraph index out of range.", { paragraphs := [{}, {}, {}] }) :=
  add_formatted_text_out_of_range { paragraphs := [{}, {}, {}] } 999 "x" none (by decide)

/-- C3 counterexample: `add_table` of src/tools/document_table.py loads
the document from the locator path (package dir) but saves it through
`save_document` into the `documents` folder — for identifier `d` the
load path and the save path differ, contradicting the claim that every
mutating operation saves to the path the locator produced. -/
theorem tools_add_table_path_mismatch :
    toolsAddTablePaths "/app/src" none "d" = ("/app/src/d.docx", "documents/d.docx") ∧
    ("/app/src/d.docx" : String) ≠ "documents/d.docx" := by
  exact ⟨by decide, by decide⟩

/-- C3 amended: the mutating tools of src/server.py save to exactly the
path the locator produced for the identifier, but `add_table` of
src/tools/document_table.py loads from the package directory and saves
into the default `documents` folder, a different path for every
document identifier. -/
theorem save_path_matches_locator_only_in_server (scriptDir docId name : String) :
    (serverToolPaths scriptDir docId).2 = serverGetDocumentPath scriptDir docId ∧
    (toolsAddTablePaths "/app/src" none name).1 ≠ (toolsAddTablePaths "/app/src" none name).2 := by
  refine ⟨rfl, fun h => ?_⟩
  have hd := congrArg String.data h
  simp only [toolsAddTablePaths, helpersGetDocumentPath, saveDocumentPath, pyJoin,
    Option.getD, String.data_append] at hd
  simp at hd

/-- C8 counterexample: a `line_spacing` value whose bare-float parse
fails is not applied as a point value; the fallback re-raises and the
call surfaces the conversion error. -/
theorem line_spacing_fallback_counterexample :
    pyFloat? (PyVal.str "x") = none ∧
    applyParagraphFormatting {} { line_spacing := some (PyVal.str "x") }
      = .error "could not convert string to float: 'x'" :=
  ⟨by decide, by decide⟩

/-- C8 amended: `line_spacing` is parsed once as a bare float and applied
as a multiple on success; on failure the point-value fallback re-runs the
identical conversion, so it always fails too and the error is surfaced to
the caller — no value is ever applied as a point value. -/
theorem line_spacing_multiple_or_error (pf : ParaFormat) (fmt : PFormatting) (v : PyVal)
    (hv : fmt.line_spacing = some v) :
    (∀ q, pyFloat? v = some q →
        ∃ pf2, applyParagraphFormatting pf fmt = .ok pf2 ∧
          pf2.lineSpacing = some (.multiple q)) ∧
    (pyFloat? v = none → applyParagraphFormatting pf fmt = .error (floatErrMsg v)) ∧
    (∀ pf2 emu, applyParagraphFormatting pf fmt = .ok pf2 →
        pf2.lineSpacing ≠ some (.points emu)) := by
  refine ⟨?_, ?_, ?_⟩
  · intro q hq
    unfold applyParagraphFormatting
    rw [fmtLineSpacing_some fmt _ v q hv hq]
    exact ⟨_, rfl, by simp⟩
  · intro hq
    unfold applyParagraphFormatting
    rw [fmtLineSpacing_err fmt _ v hv hq]
  · intro pf2 emu h
    unfold applyParagraphFormatting at h
    cases hq : pyFloat? v with
    | some q =>
        rw [fmtLineSpacing_some fmt _ v q hv hq] at h
        cases h
        simp
    | none =>
        rw [fmtLineSpacing_err fmt _ v hv hq] at h
        exact absurd h (by simp)

/-- C8 amended witness: a numeric value 2 is applied as the multiple 2;
the string value `x` errors. -/
theorem line_spacing_multiple_or_error_witness :
    (∃ pf2, applyParagraphFormatting {} { line_spacing := some (PyVal.num 2) } = .ok pf2 ∧
        pf2.lineSpacing = some (.multiple 2)) ∧
    applyParagraphFormatting {} { line_spacing := some (PyVal.str "nope") }
      = .error (floatErrMsg (PyVal.str "nope")) := by
  constructor
  · exact (line_spacing_multiple_or_error {} { line_spacing := some (PyVal.num 2) }
      (PyVal.num 2) rfl).1 2 rfl
  · exact (line_spacing_multiple_or_error {} { line_spacing := some (PyVal.str "nope") }
      (PyVal.str "nope") rfl).2.1 rfl

/-- Applying an alignment-only formatting map always succeeds and only
sets the alignment. -/
theorem applyParagraphFormatting_center (pf : ParaFormat) :
    applyParagraphFormatting pf { alignment := some "CENTER" }
      = .ok { pf with alignment := some .center } := rfl

/-- C6: formatting updates are sparse.  Keys absent from the formatting
map leave the corresponding stored paragraph properties unchanged, and at
the tool level `set_paragraph_properties` with only
`{"alignment": "CENTER"}` does not alter the paragraph's previously set
`space_after` (and adds or removes no paragraph). -/
theorem set_paragraph_properties_sparse (pf0 : ParaFormat) (fmt : PFormatting)
    (pf2 : ParaFormat) (h : applyParagraphFormatting pf0 fmt = .ok pf2)
    (d : Doc) (idx : Nat) (hidx : idx < d.paragraphs.length) :
    ((fmt.alignment = none → pf2.alignment = pf0.alignment) ∧
     (fmt.left_indent = none → pf2.leftIndent = pf0.leftIndent) ∧
     (fmt.right_indent = none → pf2.rightIndent = pf0.rightIndent) ∧
     (fmt.first_line_indent = none → pf2.firstLineIndent = pf0.firstLineIndent) ∧
     (fmt.space_before = none → pf2.spaceBefore = pf0.spaceBefore) ∧
     (fmt.space_after = none → pf2.spaceAfter = pf0.spaceAfter) ∧
     (fmt.line_spacing = none → pf2.lineSpacing = pf0.lineSpacing) ∧
     (fmt.keep_together = none → pf2.keepTogether = pf0.keepTogether) ∧
     (fmt.keep_with_next = none → pf2.keepWithNext = pf0.keepWithNext) ∧
     (fmt.page_break_before = none → pf2.pageBreakBefore = pf0.pageBreakBefore) ∧
     (fmt.widow_control = none → pf2.widowControl = pf0.widowControl)) ∧
    ((setParagraphProperties d (idx : Int) { alignment := some "CENTER" }).2.paragraphs.getD idx
          default).fmt.spaceAfter
      = (d.paragraphs.getD idx default).fmt.spaceAfter ∧
    (setParagraphProperties d (idx : Int) { alignment := some "CENTER" }).2.paragraphs.length
      = d.paragraphs.length := by
  constructor
  · unfold applyParagraphFormatting at h
    cases hls : fmtLineSpacing fmt
        (fmtSpaceAfter fmt (fmtSpaceBefore fmt (fmtFirstLineIndent fmt
          (fmtRightIndent fmt (fmtLeftIndent fmt (fmtAlignment fmt pf0)))))) with
    | error e =>
        rw [hls] at h
        exact absurd h (by simp)
    | ok pfm =>
        rw [hls] at h
        cases h
        obtain ⟨f1, f2, f3, f4, f5, f6, f7, f8, f9, f10⟩ := fmtLineSpacing_ok_frame _ _ _ hls
        refine ⟨?_, ?_, ?_, ?_, ?_, ?_, ?_, ?_, ?_, ?_, ?_⟩
        · intro hx
          simp [f1, fmtAlignment_none fmt pf0 hx]
        · intro hx
          simp [f2, fmtLeftIndent_none fmt _ hx]
        · intro hx
          simp [f3, fmtRightIndent_none fmt _ hx]
        · intro hx
          simp [f4, fmtFirstLineIndent_none fmt _ hx]
        · intro hx
          simp [f5, fmtSpaceBefore_none fmt _ hx]
        · intro hx
          simp [f6, fmtSpaceAfter_none fmt _ hx]
        · intro hx
          rw [fmtLineSpacing_none fmt _ hx] at hls
          cases hls
          simp
        · intro hx
          simp [fmtKeepTogether_none fmt _ hx, f7]
        · intro hx
          simp [fmtKeepWithNext_none fmt _ hx, f8]
        · intro hx
          simp [fmtPageBreakBefore_none fmt _ hx, f9]
        · intro hx
          simp [fmtWidowControl_none fmt _ hx, f10]
  · have hb : ¬((idx : Int) < 0 ∨ (d.paragraphs.length : Int) ≤ (idx : Int)) := by
      omega
    unfold setParagraphProperties
    rw [if_neg hb]
    simp only [applyParagraphFormatting_center, Int.toNat_natCast]
    constructor
    · rw [List.getD_eq_getD_get?, List.get?_set_eq_of_lt _ hidx]
      rfl
    · simp

/-- C6 witness: applying `{"alignment": "CENTER"}` to the only paragraph
of a document whose `space_after` is 12pt leaves `space_after` at 12pt. -/
theorem set_paragraph_properties_sparse_witness :
    applyParagraphFormatting { spaceAfter := some 152400 } { alignment := some "CENTER" }
        = .ok { spaceAfter := some 152400, alignment := some Alignment.center } ∧
    (({ alignment := some "CENTER" } : PFormatting).space_after = none →
        ({ spaceAfter := some 152400, alignment := some Alignment.center } : ParaFormat).spaceAfter
          = ({ spaceAfter := some 152400 } : ParaFormat).spaceAfter) ∧
    ((setParagraphProperties { paragraphs := [{ fmt := { spaceAfter := some 152400 } }] }
          ((0 : Nat) : Int) { alignment := some "CENTER" }).2.paragraphs.getD 0
            default).fmt.spaceAfter
      = (({ paragraphs := [{ fmt := { spaceAfter := some 152400 } }] } : Doc).paragraphs.getD 0
            default).fmt.spaceAfter := by
  have h := set_paragraph_properties_sparse { spaceAfter := some 152400 }
    { alignment := some "CENTER" } { spaceAfter := some 152400, alignment := some Alignment.center }
    (by decide) { paragraphs := [{ fmt := { spaceAfter := some 152400 } }] } 0 (by decide)
  exact ⟨by decide, h.1.2.2.2.2.2.1, h.2.1⟩

/-- C2: `add_table` with a comma-separated data string.  Fewer values
than `rows*cols` succeed, the table is appended with the remaining cells
empty; strictly more values return the dimension-mismatch error with the
persisted document unchanged (no save, no table). -/
theorem add_table_pad_or_reject (builtin : String → StyleKind → Bool) (d : Doc)
    (rows cols : Nat) (ds : String) (n : Nat)
    (hne : ds ≠ "") (hn : n = (pySplitComma ds).length) :
    ((pySplitComma ds).length ≤ rows * cols →
      ∃ t : TableM,
        serverAddTable builtin d rows cols (some ds) none
          = (s!"Table with {rows} rows and {cols} columns added successfully.",
             { d with tables := d.tables ++ [t] }) ∧
        t.rows = rows ∧ t.cols = cols ∧
        (∀ i j, i < rows → j < cols → (pySplitComma ds).length ≤ i * cols + j →
          t.cellText i j = "")) ∧
    (rows * cols < (pySplitComma ds).length →
      serverAddTable builtin d rows cols (some ds) none
        = (s!"Error: Number of data elements ({n}) exceeds table dimensions ({rows}x{cols}).",
           d)) := by
  constructor
  · intro hle
    refine ⟨{ rows := rows, cols := cols,
              cells := (List.range rows).map fun i =>
                (List.range cols).map fun j =>
                  pyStrip ((pySplitComma ds ++
                    List.replicate (rows * cols - (pySplitComma ds).length) "").getD
                      (i * cols + j) ""),
              style := none }, ?_, rfl, rfl, ?_⟩
    · unfold serverAddTable
      simp only [if_neg hne, if_neg (Nat.not_lt.mpr hle)]
    · intro i j hi hj hidx
      unfold TableM.cellText
      have hrow :
          ((List.range rows).map fun i =>
              (List.range cols).map fun j =>
                pyStrip ((pySplitComma ds ++
                  List.replicate (rows * cols - (pySplitComma ds).length) "").getD
                    (i * cols + j) "")).getD i []
            = (List.range cols).map fun j =>
                pyStrip ((pySplitComma ds ++
                  List.replicate (rows * cols - (pySplitComma ds).length) "").getD
                    (i * cols + j) "") := by
        rw [List.getD_eq_getElem _ _ (by simpa using hi)]
        simp [List.getElem_map]
      rw [hrow]
      rw [List.getD_eq_getElem _ _ (by simpa using hj)]
      simp only [List.getElem_map, List.getElem_range]
      rw [List.getD_append_right _ _ _ _ hidx]
      have hcell : i * cols + j < rows * cols := by
        calc i * cols + j < i * cols + cols := by omega
        _ = (i + 1) * cols := by ring
        _ ≤ rows * cols := Nat.mul_le_mul_right cols (by omega)
      rw [List.getD_eq_getElem _ _ (by simp; omega)]
      simp [List.getElem_replicate]
      rfl
  · intro hgt
    unfold serverAddTable
    simp only [if_neg hne, if_pos hgt, hn]

/-- C2 witness: `add_table("d",2,2,"a,b,c")` succeeds with cell (1,1)
empty; `add_table("d",2,2,"a,b,c,d,e")` fails with the dimension-mismatch
error and performs no save. -/
theorem add_table_pad_or_reject_witness :
    (((pySplitComma "a,b,c").length ≤ 2 * 2 →
      ∃ t : TableM,
        serverAddTable (fun _ _ => false) {} 2 2 (some "a,b,c") none
          = ("Table with 2 rows and 2 columns added successfully.",
             { ({} : Doc) with tables := ({} : Doc).tables ++ [t] }) ∧
        t.rows = 2 ∧ t.cols = 2 ∧
        (∀ i j, i < 2 → j < 2 → (pySplitComma "a,b,c").length ≤ i * 2 + j →
          t.cellText i j = ""))) ∧
    (2 * 2 < (pySplitComma "a,b,c,d,e").length →
      serverAddTable (fun _ _ => false) {} 2 2 (some "a,b,c,d,e") none
        = ("Error: Number of data elements (5) exceeds table dimensions (2x2).", {})) :=
  ⟨(add_table_pad_or_reject (fun _ _ => false) {} 2 2 "a,b,c" 3 (by decide) (by decide)).1,
   (add_table_pad_or_reject (fun _ _ => false) {} 2 2 "a,b,c,d,e" 5 (by decide) (by decide)).2⟩

theorem getD_set_self (l : List α) (n : Nat) (a d : α) (h : n < l.length) :
    (l.set n a).getD n d = a := by
  rw [List.getD_eq_getD_get?, List.get?_set_eq_of_lt _ h]
  rfl

/-- On an actual orientation change with no explicit dimensions in the
same map, the orientation step swaps width and height. -/
theorem applyOrientationStep_swap (p : SectionProps) (s : Sect) (o : String)
    (hor : p.orientation = some o)
    (hch : (pyUpper o = "LANDSCAPE" ∧ s.orientation = .portrait) ∨
           (pyUpper o = "PORTRAIT" ∧ s.orientation = .landscape))
    (hpw : p.page_width = none) (hph : p.page_height = none) :
    applyOrientationStep p s
      = .ok { s with
              orientation := if pyUpper o = "LANDSCAPE" then .landscape else .portrait,
              pageWidth := s.pageHeight, pageHeight := s.pageWidth } := by
  rcases hch with ⟨hl, hp⟩ | ⟨hl, hp⟩ <;>
    unfold applyOrientationStep <;>
    simp [hor, hl, hp, hpw, hph]

/-- On an actual orientation change with an explicit dimension in the
same map, the orientation step does not swap. -/
theorem applyOrientationStep_noswap (p : SectionProps) (s : Sect) (o : String)
    (hor : p.orientation = some o)
    (hch : (pyUpper o = "LANDSCAPE" ∧ s.orientation = .portrait) ∨
           (pyUpper o = "PORTRAIT" ∧ s.orientation = .landscape))
    (hdim : ¬(p.page_width = none ∧ p.page_height = none)) :
    applyOrientationStep p s
      = .ok { s with
              orientation := if pyUpper o = "LANDSCAPE" then .landscape else .portrait } := by
  rcases hch with ⟨hl, hp⟩ | ⟨hl, hp⟩ <;>
    unfold applyOrientationStep <;>
    simp [hor, hl, hp, hdim]

/-- Evaluation of `set_section_properties` once the orientation step
succeeds (with no `start_type` key). -/
theorem setSectionProperties_eval (d : Doc) (idx : Nat) (p : SectionProps) (s s2 : Sect)
    (hidx : idx < d.sections.length) (hs : s = d.sections.getD idx default)
    (hst : p.start_type = none) (hstep : applyOrientationStep p s = .ok s2) :
    setSectionProperties d idx p
      = (s!"Properties for section {idx} updated successfully.",
         { d with
           sections := d.sections.set idx (applyMarginSteps p (applyDimSteps p s2)) }) := by
  unfold setSectionProperties
  rw [if_neg (Nat.not_le.mpr hidx), ← hs]
  have h1 : startTypeStep p s = .ok s := by
    unfold startTypeStep
    rw [hst]
  rw [h1]
  show (match applyOrientationStep p s with
        | .error e => (e, d)
        | .ok s2 =>
            (s!"Properties for section {idx} updated successfully.",
             { d with
               sections := d.sections.set idx (applyMarginSteps p (applyDimSteps p s2)) })) = _
  rw [hstep]

/-- C5: changing a section's orientation via `set_section_properties` (or
its wrapper `change_page_orientation`) with neither `page_width` nor
`page_height` in the same call swaps the section's stored page width and
height; when explicit dimensions are supplied in the same call, no swap
occurs (the supplied dimensions are applied and an unsupplied one keeps
its old value). -/
theorem orientation_change_swaps_dimensions (d : Doc) (idx : Nat) (p : SectionProps)
    (s : Sect) (o : String)
    (hidx : idx < d.sections.length) (hs : s = d.sections.getD idx default)
    (hst : p.start_type = none) (hor : p.orientation = some o)
    (hch : (pyUpper o = "LANDSCAPE" ∧ s.orientation = .portrait) ∨
           (pyUpper o = "PORTRAIT" ∧ s.orientation = .landscape)) :
    (p.page_width = none → p.page_height = none →
      (setSectionProperties d idx p).1 = s!"Properties for section {idx} updated successfully." ∧
      ((setSectionProperties d idx p).2.sections.getD idx default).pageWidth = s.pageHeight ∧
      ((setSectionProperties d idx p).2.sections.getD idx default).pageHeight = s.pageWidth) ∧
    (∀ w h, p.page_width = some w → p.page_height = some h →
      ((setSectionProperties d idx p).2.sections.getD idx default).pageWidth = inchesEmu w ∧
      ((setSectionProperties d idx p).2.sections.getD idx default).pageHeight = inchesEmu h) ∧
    (∀ w, p.page_width = some w → p.page_height = none →
      ((setSectionProperties d idx p).2.sections.getD idx default).pageWidth = inchesEmu w ∧
      ((setSectionProperties d idx p).2.sections.getD idx default).pageHeight = s.pageHeight) ∧
    (∀ h, p.page_width = none → p.page_height = some h →
      ((setSectionProperties d idx p).2.sections.getD idx default).pageWidth = s.pageWidth ∧
      ((setSectionProperties d idx p).2.sections.getD idx default).pageHeight = inchesEmu h) ∧
    (((changePageOrientation d idx o).2.sections.getD idx default).pageWidth = s.pageHeight ∧
     ((changePageOrientation d idx o).2.sections.getD idx default).pageHeight = s.pageWidth) := by
  refine ⟨?_, ?_, ?_, ?_, ?_⟩
  · intro hpw hph
    rw [setSectionProperties_eval d idx p s _ hidx hs hst
          (applyOrientationStep_swap p s o hor hch hpw hph)]
    refine ⟨rfl, ?_, ?_⟩ <;>
      rw [getD_set_self _ _ _ _ hidx] <;>
      simp [applyDimSteps_none p _ hpw hph]
  · intro w h hpw hph
    rw [setSectionProperties_eval d idx p s _ hidx hs hst
          (applyOrientationStep_noswap p s o hor hch (by simp [hpw]))]
    constructor <;> rw [getD_set_self _ _ _ _ hidx] <;>
      simp [applyDimSteps_both p _ w h hpw hph]
  · intro w hpw hph
    rw [setSectionProperties_eval d idx p s _ hidx hs hst
          (applyOrientationStep_noswap p s o hor hch (by simp [hpw]))]
    constructor <;> rw [getD_set_self _ _ _ _ hidx] <;>
      simp [applyDimSteps_width_only p _ w hpw hph]
  · intro h hpw hph
    rw [setSectionProperties_eval d idx p s _ hidx hs hst
          (applyOrientationStep_noswap p s o hor hch (by simp [hph]))]
    constructor <;> rw [getD_set_self _ _ _ _ hidx] <;>
      simp [applyDimSteps_height_only p _ h hpw hph]
  · unfold changePageOrientation
    rw [setSectionProperties_eval d idx { orientation := some o } s _ hidx hs rfl
          (applyOrientationStep_swap { orientation := some o } s o rfl hch rfl rfl)]
    constructor <;> rw [getD_set_self _ _ _ _ hidx] <;>
      simp [applyDimSteps_none { orientation := some o } _ rfl rfl]

/-- C5 witness: a default portrait section (8.5in x 11in, i.e. EMU
7772400 x 10058400) after `change_page_orientation("d",0,"LANDSCAPE")`
reports width 11in and height 8.5in. -/
theorem orientation_change_swaps_dimensions_witness :
    ((changePageOrientation { sections := [{}] } 0 "LANDSCAPE").2.sections.getD 0
        default).pageWidth = 10058400 ∧
    ((changePageOrientation { sections := [{}] } 0 "LANDSCAPE").2.sections.getD 0
        default).pageHeight = 7772400 := by
  have h := orientation_change_swaps_dimensions { sections := [{}] } 0
    { orientation := some "LANDSCAPE" } {} "LANDSCAPE" (by decide) (by decide) rfl rfl
    (Or.inl ⟨by decide, by decide⟩)
  exact ⟨h.2.2.2.2.1, h.2.2.2.2.2⟩

theorem pyIdx?_nonneg (len : Nat) (i : Int) (h0 : 0 ≤ i) (hl : i < (len : Int)) :
    pyIdx? len i = some i.toNat := by
  unfold pyIdx?
  rw [if_pos h0, if_pos hl]

/-- C7 counterexample: on a one-table document with a 2x2 table, the
`merge_table_cells` registered by src/tools/document_table.py rejects
`end_col = 5` (returning failure and saving nothing) even though every
condition the claim lists as the complete validation holds
(`table_index` within the table count, `start_row >= 0`,
`end_row < row count`, `start_col >= 0`): an upper-bound check against
the column count is made, contrary to the claim. -/
theorem merge_cells_column_check_counterexample :
    toolsMergeTableCells
        { tables := [{ rows := 2, cols := 2, cells := [["a", "b"], ["c", "d"]] }] } 0 0 0 1 5
      = (false, { tables := [{ rows := 2, cols := 2, cells := [["a", "b"], ["c", "d"]] }] }) ∧
    0 < ({ tables := [{ rows := 2, cols := 2, cells := [["a", "b"], ["c", "d"]] }] }
          : Doc).tables.length ∧
    (0 : Int) ≤ 0 ∧
    (1 : Int) <
      ((({ rows := 2, cols := 2, cells := [["a", "b"], ["c", "d"]] } : TableM).rows : Int)) := by
  decide

/-- C7 amended: the `merge_table_cells` of src/server.py validates
exactly the listed conditions — table index below the table count,
`start_row >= 0`, `end_row < row count`, `start_col >= 0` — returning an
error with no save on violation, and makes no column-count check on
`start_col`/`end_col` (inputs passing validation go straight to the
library cell lookups, which may themselves fail); the variant in
src/tools/document_table.py, also cited by the claim, additionally
bounds-checks the columns and rejects `end_col >= column count` with no
save. -/
theorem merge_cells_validation (d : Doc) (ti sr sc er ec : Int) (t : TableM) (n : Nat)
    (h0 : 0 ≤ ti) (hlt : ti < (d.tables.length : Int))
    (ht : t = d.tables.getD ti.toNat default) (hn : n = d.tables.length) :
    (∀ ti2 : Int, (n : Int) ≤ ti2 →
        serverMergeTableCells d ti2 sr sc er ec
          = (s!"Error: Table index {ti2} is out of range. Document has {n} tables.", d)) ∧
    ((sr < 0 ∨ (t.rows : Int) ≤ er ∨ sc < 0) →
        serverMergeTableCells d ti sr sc er ec
          = ("Error: Row or column index out of range.", d)) ∧
    ((0 ≤ sr ∧ er < (t.rows : Int) ∧ 0 ≤ sc) →
        ((serverMergeTableCells d ti sr sc er ec).1
            = s!"Cells merged from ({sr},{sc}) to ({er},{ec}) in table {ti}." ∨
         (serverMergeTableCells d ti sr sc er ec).1
            = "Error merging table cells: list index out of range")) ∧
    ((0 ≤ sr ∧ er < (t.rows : Int) ∧ 0 ≤ sc) ∧ (t.cols : Int) ≤ ec →
        toolsMergeTableCells d ti sr sc er ec = (false, d)) := by
  have hne : d.tables.length ≠ 0 := by omega
  refine ⟨?_, ?_, ?_, ?_⟩
  · intro ti2 hge
    unfold serverMergeTableCells
    rw [if_pos (Or.inr (by omega)), hn]
  · intro hviol
    unfold serverMergeTableCells
    rw [if_neg (by push_neg; exact ⟨hne, by omega⟩)]
    rw [pyIdx?_nonneg _ _ h0 hlt]
    simp only [← ht]
    rw [if_pos hviol]
  · intro hok
    unfold serverMergeTableCells
    rw [if_neg (by push_neg; exact ⟨hne, by omega⟩)]
    rw [pyIdx?_nonneg _ _ h0 hlt]
    simp only [← ht]
    rw [if_neg (by omega)]
    cases hA : tableCellIdx? t sr sc <;> cases hB : tableCellIdx? t er ec <;> simp
  · intro ⟨hok, hcol⟩
    unfold toolsMergeTableCells
    rw [if_neg (by omega), ← ht, if_pos (by omega)]

/-- C7 amended witness: on a 2x2 table, args (start_row 0, start_col 5,
end_row 1, end_col 7) pass the server validation (no column check) and
reach the library lookup, while the tools variant rejects them. -/
theorem merge_cells_validation_witness :
    ((0 : Int) ≤ 0 ∧ (1 : Int) < ((2 : Nat) : Int) ∧ (0 : Int) ≤ 5) ∧
    ((serverMergeTableCells
          { tables := [{ rows := 2, cols := 2, cells := [["a", "b"], ["c", "d"]] }] } 0 0 5 1 7).1
        = "Cells merged from (0,5) to (1,7) in table 0." ∨
     (serverMergeTableCells
          { tables := [{ rows := 2, cols := 2, cells := [["a", "b"], ["c", "d"]] }] } 0 0 5 1 7).1
        = "Error merging table cells: list index out of range") ∧
    toolsMergeTableCells
        { tables := [{ rows := 2, cols := 2, cells := [["a", "b"], ["c", "d"]] }] } 0 0 5 1 7
      = (false, { tables := [{ rows := 2, cols := 2, cells := [["a", "b"], ["c", "d"]] }] }) := by
  have h := merge_cells_validation
    { tables := [{ rows := 2, cols := 2, cells := [["a", "b"], ["c", "d"]] }] } 0 0 5 1 7
    { rows := 2, cols := 2, cells := [["a", "b"], ["c", "d"]] } 1
    (by decide) (by decide) (by decide) (by decide)
  exact ⟨⟨by decide, by decide, by decide⟩,
    h.2.2.1 ⟨by decide, by decide, by decide⟩,
    h.2.2.2 ⟨⟨by decide, by decide, by decide⟩, by decide⟩⟩

theorem styleExists_iff_count (d : Doc) (n : String) (k : StyleKind) :
    styleExists d n k = true ↔ 0 < styleCount d n k := by
  unfold styleExists styleCount
  rw [List.countP_pos, List.any_eq_true]

theorem styleCount_append (d : Doc) (n : String) (k : StyleKind) :
    styleCount { d with styles := d.styles ++ [(n, k)] } n k = styleCount d n k + 1 := by
  unfold styleCount
  simp [List.countP_append]

theorem styleExists_append (d : Doc) (n : String) (k : StyleKind) :
    styleExists { d with styles := d.styles ++ [(n, k)] } n k = true := by
  unfold styleExists
  simp [List.any_append]

/-- Embeds `ensure_style_exists` on an already-present style: report and no-op. -/
theorem ensureStyleExists_of_exists (builtin : String → StyleKind → Bool) (d : Doc)
    (n tstr : String) (k : StyleKind)
    (hk : styleTypeMap? (pyLower tstr) = some k) (hex : styleExists d n k = true) :
    ensureStyleExists builtin d n tstr = (s!"Style '{n}' already exists in document.", d) := by
  unfold ensureStyleExists
  simp only [hk]
  rw [if_pos hex]

/-- Embeds `ensure_style_exists` materialising an absent built-in style: the
style collection gains the definition and the document is saved. -/
theorem ensureStyleExists_materialize (builtin : String → StyleKind → Bool) (d : Doc)
    (n tstr : String) (k : StyleKind)
    (hk : styleTypeMap? (pyLower tstr) = some k)
    (hnn : d.styles.any (fun p => p.1 = n) = false) (hb : builtin n k = true) :
    (ensureStyleExists builtin d n tstr).2 = { d with styles := d.styles ++ [(n, k)] } := by
  have hex : styleExists d n k = false := by
    unfold styleExists
    rw [List.any_eq_false]
    intro p hp
    have := (List.any_eq_false.mp hnn) p hp
    simp_all
  unfold ensureStyleExists
  simp only [hk]
  rw [if_neg (by simp [hex])]
  unfold refStyle
  rw [if_neg (by simp [hnn]), if_pos (by simp [hb])]

/-- C1: style materialisation is idempotent.  For a materialisable style
(already present, or a built-in whose name is not yet taken in the
collection) and a valid style-kind keyword, two consecutive
`ensure_style_exists` calls leave exactly one entry of that name and kind
in the style collection, and the second call reports "already exists"
without touching the document. -/
theorem ensure_style_exists_idempotent (builtin : String → StyleKind → Bool) (d : Doc)
    (n tstr : String) (k : StyleKind)
    (hk : styleTypeMap? (pyLower tstr) = some k)
    (hmat : styleExists d n k = true ∨
            (builtin n k = true ∧ d.styles.any (fun p => p.1 = n) = false))
    (huniq : styleCount d n k ≤ 1) :
    styleCount (ensureStyleExists builtin
        (ensureStyleExists builtin d n tstr).2 n tstr).2 n k = 1 ∧
    (ensureStyleExists builtin (ensureStyleExists builtin d n tstr).2 n tstr).1
      = s!"Style '{n}' already exists in document." ∧
    (ensureStyleExists builtin (ensureStyleExists builtin d n tstr).2 n tstr).2
      = (ensureStyleExists builtin d n tstr).2 := by
  rcases hmat with hex | ⟨hb, hnn⟩
  · have h1 := ensureStyleExists_of_exists builtin d n tstr k hk hex
    have h2 : (ensureStyleExists builtin d n tstr).2 = d := by rw [h1]
    rw [h2, ensureStyleExists_of_exists builtin d n tstr k hk hex]
    have hpos := (styleExists_iff_count d n k).mp hex
    refine ⟨?_, rfl, rfl⟩
    show styleCount d n k = 1
    omega
  · have h1 := ensureStyleExists_materialize builtin d n tstr k hk hnn hb
    have hex0 : styleExists d n k = false := by
      unfold styleExists
      rw [List.any_eq_false]
      intro p hp
      have := (List.any_eq_false.mp hnn) p hp
      simp_all
    have hc0 : styleCount d n k = 0 := by
      by_contra hc
      have : styleExists d n k = true := (styleExists_iff_count d n k).mpr (by omega)
      simp [this] at hex0
    rw [h1, ensureStyleExists_of_exists builtin _ n tstr k hk (styleExists_append d n k)]
    refine ⟨?_, rfl, rfl⟩
    show styleCount { d with styles := d.styles ++ [(n, k)] } n k = 1
    rw [styleCount_append, hc0]

/-- C1 witness: materialising the built-in paragraph style `Quote` twice
in a freshly created empty style collection leaves exactly one entry and
the second call reports "already exists". -/
theorem ensure_style_exists_idempotent_witness :
    styleCount (ensureStyleExists (fun n k => decide (n = "Quote" ∧ k = StyleKind.paragraph))
        (ensureStyleExists (fun n k => decide (n = "Quote" ∧ k = StyleKind.paragraph))
          {} "Quote" "paragraph").2 "Quote" "paragraph").2 "Quote" StyleKind.paragraph = 1 ∧
    (ensureStyleExists (fun n k => decide (n = "Quote" ∧ k = StyleKind.paragraph))
        (ensureStyleExists (fun n k => decide (n = "Quote" ∧ k = StyleKind.paragraph))
          {} "Quote" "paragraph").2 "Quote" "paragraph").1
      = "Style 'Quote' already exists in document." := by
  have h := ensure_style_exists_idempotent
    (fun n k => decide (n = "Quote" ∧ k = StyleKind.paragraph)) {} "Quote" "paragraph"
    StyleKind.paragraph (by decide) (Or.inr ⟨by decide, by decide⟩) (by decide)
  exact ⟨h.1, h.2.1⟩

/-- The backward walk lands on section 0 when it is the only section
with its own header below `i`. -/
theorem findPrevUnlinkedHeader_finds_zero (secs : List Sect) (i : Nat)
    (h0 : (secs.getD 0 default).headerLinked = false)
    (hlink : ∀ j, 0 < j → j < i → (secs.getD j default).headerLinked = true)
    (hpos : 0 < i) :
    findPrevUnlinkedHeader secs i = some 0 := by
  induction i with
  | zero => omega
  | succ m ih =>
      rw [findPrevUnlinkedHeader]
      by_cases hm : m = 0
      · subst hm
        rw [if_neg (by simpa using h0)]
      · rw [if_pos (hlink m (by omega) (by omega))]
        exact ih (fun j hj hji => hlink j hj (by omega)) (by omega)

/-- C4: for a document whose sections 1..i link their headers to the
previous section while only section 0 defines its own header,
`get_header_text` on section i walks backward to section 0, states that
the content is inherited from section 0, and returns section 0's header
text. -/
theorem get_header_text_inherits (secs : List Sect) (i : Nat)
    (hi : i < secs.length) (hpos : 0 < i)
    (h0 : (secs.getD 0 default).headerLinked = false)
    (hlink : ∀ j, 0 < j → j ≤ i → (secs.getD j default).headerLinked = true)
    (hne : (secs.getD 0 default).headerParas ≠ []) :
    getHeaderText secs i
      = inheritedHeaderMsg 0 (pyJoinWith "\n" (secs.getD 0 default).headerParas) := by
  have hfind := findPrevUnlinkedHeader_finds_zero secs i h0
    (fun j hj hji => hlink j hj (Nat.le_of_lt hji)) hpos
  have h00 : getHeaderText secs 0 = pyJoinWith "\n" (secs.getD 0 default).headerParas := by
    rw [getHeaderText]
    rw [if_neg (by omega), if_neg (by simpa using h0), if_neg hne]
  rw [getHeaderText]
  rw [if_neg (by omega), if_pos (hlink i hpos (Nat.le_refl i))]
  split
  · rename_i j heq
    rw [hfind] at heq
    cases heq
    rw [h00]
  · rename_i heq
    rw [hfind] at heq
    cases heq

/-- C4 witness: with sections [0,1,2] where only section 0 has its own
header (text "Main Header"), `get_header_text("d",2)` reports inheritance
from section 0 and that section's text. -/
theorem get_header_text_inherits_witness :
    getHeaderText
        [{ headerLinked := false, headerParas := ["Main Header"] }, {}, {}] 2
      = "Header is linked to section 0. Content: Main Header" := by
  have h := get_header_text_inherits
    [{ headerLinked := false, headerParas := ["Main Header"] }, {}, {}] 2
    (by decide) (by decide) (by decide)
    (by
      intro j hj hji
      interval_cases j <;> decide)
    (by decide)
  rw [h]
  decide

/-- The document written by `create_complete_document` when every
content descriptor is dropped: just the title heading. -/
def titleOnlyDoc (title : String) : Doc :=
  { newDocument with paragraphs := [{ runs := mkRuns title, style := some "Title" }] }

theorem docAddHeading_title (builtin : String → StyleKind → Bool) (title : String) :
    docAddHeading builtin newDocument title 0 = .ok (titleOnlyDoc title) := rfl

/-- A descriptor matching none of the three branches contributes
nothing. -/
theorem addContentItem_unknown (builtin : String → StyleKind → Bool) (d : Doc)
    (item : ContentItem)
    (h : ¬(contentTypeOf item = "heading" ∨ contentTypeOf item = "paragraph" ∨
           contentTypeOf item = "table")) :
    addContentItem builtin d item = .ok d := by
  push_neg at h
  obtain ⟨h1, h2, h3⟩ := h
  unfold addContentItem
  rw [if_neg h1, if_neg h2, if_neg h3]

theorem addContent_all_unknown (builtin : String → StyleKind → Bool) (d : Doc)
    (content : List ContentItem)
    (hall : ∀ it ∈ content, ¬(contentTypeOf it = "heading" ∨ contentTypeOf it = "paragraph" ∨
             contentTypeOf it = "table")) :
    addContentToDocument builtin d content = .ok d := by
  induction content with
  | nil => rfl
  | cons it rest ih =>
      rw [addContentToDocument,
        addContentItem_unknown builtin d it (hall it (List.mem_cons_self it rest))]
      exact ih fun x hx => hall x (List.mem_cons_of_mem it hx)

/-- C10: for every content descriptor whose lowercased type is none of
`heading`, `paragraph`, `table` (including a missing type), the content
expander appends nothing and still reports success, so
`create_complete_document` and `update_document` report success while
silently dropping all such descriptors. -/
theorem unknown_content_type_dropped (builtin : String → StyleKind → Bool)
    (scriptDir docId title : String) (d : Doc) (item : ContentItem)
    (rest content : List ContentItem)
    (hitem : ¬(contentTypeOf item = "heading" ∨ contentTypeOf item = "paragraph" ∨
               contentTypeOf item = "table"))
    (hall : ∀ it ∈ content, ¬(contentTypeOf it = "heading" ∨ contentTypeOf it = "paragraph" ∨
             contentTypeOf it = "table")) :
    addContentToDocument builtin d (item :: rest) = addContentToDocument builtin d rest ∧
    createCompleteDocument builtin scriptDir docId title content
      = (s!"Document '{docId}.docx' created successfully with title and {content.length} content items at path: {serverGetDocumentPath scriptDir docId}",
         some (titleOnlyDoc title)) ∧
    updateDocument builtin docId (some d) none content true
      = (updateDocMsg docId "updated by appending" "" (contentMsgOf content), some d) := by
  refine ⟨?_, ?_, ?_⟩
  · rw [addContentToDocument, addContentItem_unknown builtin d item hitem]
  · unfold createCompleteDocument
    simp only [docAddHeading_title builtin title,
      addContent_all_unknown builtin (titleOnlyDoc title) content hall]
  · unfold updateDocument
    rw [if_neg (by simp)]
    simp [addContent_all_unknown builtin d content hall]

/-- C10 witness: a single descriptor of type `chart` (and one with no
type) are silently dropped while both document-level operations report
success. -/
theorem unknown_content_type_dropped_witness :
    createCompleteDocument (fun _ _ => false) "/app/src" "d" "T" [{ type := some "chart" }]
      = ("Document 'd.docx' created successfully with title and 1 content items at path: /app/src/d.docx",
         some (titleOnlyDoc "T")) ∧
    updateDocument (fun _ _ => false) "d" (some {}) none [{ type := none }] true
      = ("Document 'd.docx' updated by appending and 1 content items successfully.",
         some {}) := by
  have h1 := unknown_content_type_dropped (fun _ _ => false) "/app/src" "d" "T" {}
    { type := some "chart" } [] [{ type := some "chart" }] (by decide)
    (by
      intro it hit
      simp at hit
      subst hit
      decide)
  have h2 := unknown_content_type_dropped (fun _ _ => false) "/app/src" "d" "T" {}
    { type := none } [] [{ type := none }] (by decide)
    (by
      intro it hit
      simp at hit
      subst hit
      decide)
  refine ⟨?_, ?_⟩
  · rw [h1.2.1]
    decide
  · rw [h2.2.2]
    decide

end DocxServer
